import Mathlib

/-!
Shallow embedding of the date/time extraction engine in `VLA_LLM/dates.py`.

Python `datetime` values are modelled by `PyDateTime`: `usec` is the naive
wall-clock reading in microseconds counted from 1970-01-01 00:00:00 local, and
`tz` is the attached UTC offset in microseconds (`none` for a naive datetime).
Timezones are modelled as fixed UTC offsets; `pytz.localize` attaches the
offset without changing the wall clock, exactly as the fixed-offset fragment of
`pytz` does (DST transitions are outside the model).  Comparison of two
datetimes compares the UTC instants (`usec - offset`), which agrees with Python
whenever Python defines the comparison at all (two naive or two aware values;
Python raises on a mixed comparison, so theorems that depend on an order
between bounds carry a same-awareness hypothesis).

Calendar arithmetic (`datetime(year, month, day)`, `.replace(month=, day=)`,
`calendar.monthrange`) uses the standard civil-from-days / days-from-civil
conversion on the proleptic Gregorian calendar, the same calendar Python uses.
-/

def usecPerSec : Int := 1000000
def usecPerMin : Int := 60000000
def usecPerHour : Int := 3600000000
def usecPerDay : Int := 86400000000

/-- `TIME_MIN = time(0, 0, 0)` as microseconds after local midnight. -/
def TIME_MIN_U : Int := 0
/-- `TIME_MAX = time(23, 59, 59)` as microseconds after local midnight. -/
def TIME_MAX_U : Int := 86399000000
/-- `TIME_MORNING_END = time(11, 59, 59)`. -/
def TIME_MORNING_END_U : Int := 43199000000
/-- `TIME_AFTERNOON_END = time(16, 59, 59)`. -/
def TIME_AFTERNOON_END_U : Int := 61199000000

def isLeapYear (y : Int) : Bool := (y % 4 == 0 && y % 100 != 0) || y % 400 == 0

/-- `calendar.monthrange(y, m)[1]`: number of days of month `m` in year `y`. -/
def daysInMonth (y m : Int) : Int :=
  if m = 2 then (if isLeapYear y then 29 else 28)
  else if m = 4 ∨ m = 6 ∨ m = 9 ∨ m = 11 then 30
  else 31

/-- Days since 1970-01-01 of the civil date `(y, m, d)` (Gregorian). -/
def daysFromCivil (y m d : Int) : Int :=
  let yy := if m ≤ 2 then y - 1 else y
  let era := yy / 400
  let yoe := yy - era * 400
  let mp := (m + 9) % 12
  let doy := (153 * mp + 2) / 5 + d - 1
  let doe := yoe * 365 + yoe / 4 - yoe / 100 + doy
  era * 146097 + doe - 719468

/-- Civil date `(y, m, d)` of the day `z` days after 1970-01-01. -/
def civilFromDays (z0 : Int) : Int × Int × Int :=
  let z := z0 + 719468
  let era := z / 146097
  let doe := z - era * 146097
  let yoe := (doe - doe / 1460 + doe / 36524 - doe / 146096) / 365
  let y := yoe + era * 400
  let doy := doe - (365 * yoe + yoe / 4 - yoe / 100)
  let mp := (5 * doy + 2) / 153
  let d := doy - (153 * mp + 2) / 5 + 1
  let m := if mp < 10 then mp + 3 else mp - 9
  (if m ≤ 2 then y + 1 else y, m, d)

/-- Model of a Python `datetime.datetime` value. -/
structure PyDateTime where
  usec : Int
  tz : Option Int := none
deriving DecidableEq, Repr

namespace PyDateTime

/-- `d.time()` as microseconds after local midnight. -/
def wall (d : PyDateTime) : Int := d.usec % usecPerDay

/-- Whole days between local midnight of `d` and the epoch. -/
def dayIndex (d : PyDateTime) : Int := d.usec / usecPerDay

/-- `d.hour`. -/
def hour (d : PyDateTime) : Int := d.wall / usecPerHour

/-- The UTC instant of `d` (naive datetimes read as offset 0). -/
def utc (d : PyDateTime) : Int := d.usec - d.tz.getD 0

/-- `d.weekday()`: Monday = 0 ... Sunday = 6 (1970-01-01 was a Thursday). -/
def weekday (d : PyDateTime) : Int := (d.dayIndex + 3) % 7

/-- `d + timedelta(...)`: naive wall-clock arithmetic, the tzinfo is kept. -/
def addUsec (d : PyDateTime) (k : Int) : PyDateTime := { d with usec := d.usec + k }

/-- `d.replace(hour=0, minute=0, second=0, microsecond=0)`. -/
def toMidnight (d : PyDateTime) : PyDateTime := { d with usec := d.usec - d.wall }

/-- `d.replace(hour=h)`: minute, second and microsecond are preserved. -/
def replaceHour (d : PyDateTime) (h : Int) : PyDateTime :=
  { d with usec := d.usec - d.wall + h * usecPerHour + d.wall % usecPerHour }

/-- `d.replace(hour=h, minute=m)`: second and microsecond are preserved. -/
def replaceHourMinute (d : PyDateTime) (h m : Int) : PyDateTime :=
  { d with usec := d.usec - d.wall + h * usecPerHour + m * usecPerMin + d.wall % usecPerMin }

/-- `d.year`. -/
def year (d : PyDateTime) : Int := (civilFromDays d.dayIndex).1

/-- `d.month`. -/
def month (d : PyDateTime) : Int := (civilFromDays d.dayIndex).2.1

/-- `a < b` on datetimes: comparison of the UTC instants. -/
def pyLt (a b : PyDateTime) : Bool := decide (a.utc < b.utc)

/-- `a == b` on datetimes: equal awareness and equal UTC instant. -/
def pyEq (a b : PyDateTime) : Bool := (a.tz.isSome == b.tz.isSome) && (a.utc == b.utc)

end PyDateTime

/-- Build the datetime `datetime(y, m, d, h, mi, s)` with optional UTC offset. -/
def mkDt (y m d h mi s : Int) (tz : Option Int) : PyDateTime :=
  ⟨daysFromCivil y m d * usecPerDay + h * usecPerHour + mi * usecPerMin + s * usecPerSec, tz⟩

example : daysFromCivil 1970 1 1 = 0 := by decide
example : civilFromDays 0 = (1970, 1, 1) := by decide
example : civilFromDays (daysFromCivil 2024 1 10) = (2024, 1, 10) := by decide
example : (mkDt 2024 1 10 0 0 0 none).weekday = 2 := by decide
example : daysInMonth 2024 2 = 29 := by decide

/-- Model of the `DateTimeInformation` dataclass: min/max bounds plus the
`is_exact_date_range` flag. -/
structure DateTimeInformation where
  datetime_min : Option PyDateTime := none
  datetime_max : Option PyDateTime := none
  is_exact_date_range : Bool := true
deriving DecidableEq, Repr

/-- `datetime.combine(date=d, time=t)`: the day of `d` with wall time `t`; the
tzinfo comes from the `time` value, which is naive here, so the result is
naive. -/
def combineDate (d : PyDateTime) (t : Int) : PyDateTime := ⟨d.usec - d.wall + t, none⟩

namespace DateTimeInformation

/-- `set_as_date`: the whole day of `date` (callers always pass a real
datetime, so the `if date:` guard is always taken). -/
def set_as_date (info : DateTimeInformation) (date : PyDateTime) : DateTimeInformation :=
  { info with datetime_min := some (combineDate date TIME_MIN_U),
              datetime_max := some (combineDate date TIME_MAX_U) }

def set_as_exact_datetime (info : DateTimeInformation) (d : PyDateTime) : DateTimeInformation :=
  { info with datetime_min := some d, datetime_max := some d }

def set_as_after_datetime (info : DateTimeInformation) (d : PyDateTime) : DateTimeInformation :=
  { info with datetime_min := some d, datetime_max := none }

def set_as_before_datetime (info : DateTimeInformation) (d : PyDateTime) : DateTimeInformation :=
  { info with datetime_min := none, datetime_max := some d }

/-- `set_as_between_datetime`: only succeeds when `start < end` and the pair is
not the whole-day encoding; otherwise the object is left unchanged.  The
callers in this file always pass two non-`None` datetimes, so the outer
`is not None` guard is always taken. -/
def set_as_between_datetime (info : DateTimeInformation)
    (datetime_start datetime_end : PyDateTime) (is_exact : Bool := true) :
    DateTimeInformation :=
  if PyDateTime.pyLt datetime_start datetime_end &&
      !(datetime_start.wall == TIME_MIN_U && datetime_end.wall == TIME_MAX_U) then
    { info with datetime_min := some datetime_start, datetime_max := some datetime_end,
                is_exact_date_range := is_exact }
  else info

def set_as_morning_datetime (info : DateTimeInformation) (date : PyDateTime) :
    DateTimeInformation :=
  { info with datetime_min := some (combineDate date TIME_MIN_U),
              datetime_max := some (combineDate date TIME_MORNING_END_U),
              is_exact_date_range := false }

/-- `set_as_afternoon_datetime`: min is end-of-morning plus `timedelta(0, 1)`,
i.e. one second. -/
def set_as_afternoon_datetime (info : DateTimeInformation) (date : PyDateTime) :
    DateTimeInformation :=
  { info with datetime_min := some ((combineDate date TIME_MORNING_END_U).addUsec usecPerSec),
              datetime_max := some (combineDate date TIME_AFTERNOON_END_U),
              is_exact_date_range := false }

def set_as_morning_afternoon_datetime (info : DateTimeInformation) (date : PyDateTime) :
    DateTimeInformation :=
  { info with datetime_min := some (combineDate date TIME_MIN_U),
              datetime_max := some (combineDate date TIME_AFTERNOON_END_U),
              is_exact_date_range := false }

/-- `replace_timezone`: force or strip the offset, no conversion. -/
def replace_timezone (info : DateTimeInformation) (tzinfo_val : Option Int) :
    DateTimeInformation :=
  { info with
    datetime_min := info.datetime_min.map (fun a => { a with tz := tzinfo_val }),
    datetime_max := info.datetime_max.map (fun a => { a with tz := tzinfo_val }) }

/-- `localize_to_timezone`: attach the offset to each present naive bound; a
bound that already carries timezone information is left alone. -/
def localize_to_timezone (info : DateTimeInformation) (tzOff : Int) : DateTimeInformation :=
  { info with
    datetime_min := info.datetime_min.map
      (fun a => if a.tz = none then { a with tz := some tzOff } else a),
    datetime_max := info.datetime_max.map
      (fun a => if a.tz = none then { a with tz := some tzOff } else a) }

/-- `push_dates_above_threshold`: each present bound whose hour lies in
`[1, hour_threshold)` is moved forward by 12 hours, independently. -/
def push_dates_above_threshold (info : DateTimeInformation) (hour_threshold : Int) :
    DateTimeInformation :=
  { info with
    datetime_min := info.datetime_min.map
      (fun a => if 1 ≤ a.hour ∧ a.hour < hour_threshold then a.addUsec (12 * usecPerHour) else a),
    datetime_max := info.datetime_max.map
      (fun a => if 1 ≤ a.hour ∧ a.hour < hour_threshold then a.addUsec (12 * usecPerHour) else a) }

/-- `is_date`: both bounds present, min at 00:00:00 and max at 23:59:59. -/
def is_date (info : DateTimeInformation) : Bool :=
  match info.datetime_min, info.datetime_max with
  | some a, some b => a.wall == TIME_MIN_U && b.wall == TIME_MAX_U
  | _, _ => false

def is_exact_datetime (info : DateTimeInformation) : Bool :=
  match info.datetime_min, info.datetime_max with
  | some a, some b => PyDateTime.pyEq a b
  | _, _ => false

def is_after_datetime (info : DateTimeInformation) : Bool :=
  info.datetime_min.isSome && info.datetime_max.isNone

def is_before_datetime (info : DateTimeInformation) : Bool :=
  info.datetime_min.isNone && info.datetime_max.isSome

/-- `is_between_datetime`: both bounds present, strictly ordered, and not the
single-day encoding. -/
def is_between_datetime (info : DateTimeInformation) : Bool :=
  match info.datetime_min, info.datetime_max with
  | some a, some b =>
      PyDateTime.pyLt a b && !(a.wall == TIME_MIN_U && b.wall == TIME_MAX_U)
  | _, _ => false

/-- `push_to_next_day_if_before_time`: a non-exact between-range is returned
untouched; an exact between-range is moved forward a day as a whole when its
min is stale; otherwise each present bound is moved forward independently. -/
def push_to_next_day_if_before_time (info : DateTimeInformation)
    (reference_timestamp : PyDateTime) : DateTimeInformation :=
  if info.is_between_datetime then
    if info.is_exact_date_range = false then info
    else
      match info.datetime_min, info.datetime_max with
      | some a, some b =>
          if PyDateTime.pyLt a reference_timestamp then
            { info with datetime_min := some (a.addUsec usecPerDay),
                        datetime_max := some (b.addUsec usecPerDay) }
          else info
      | _, _ => info
  else
    { info with
      datetime_min := info.datetime_min.map
        (fun a => if PyDateTime.pyLt a reference_timestamp then a.addUsec usecPerDay else a),
      datetime_max := info.datetime_max.map
        (fun a => if PyDateTime.pyLt a reference_timestamp then a.addUsec usecPerDay else a) }

/-- `__bool__`: at least one bound instantiated. -/
def truthy (info : DateTimeInformation) : Bool :=
  info.datetime_min.isSome || info.datetime_max.isSome

/-- `convert`: reduce to the canonical one- or two-element instant sequence. -/
def convert (info : DateTimeInformation) : Option (List PyDateTime) :=
  if info.is_date then info.datetime_min.map (fun a => [a])
  else if info.is_exact_datetime then info.datetime_min.map (fun a => [a])
  else if info.is_after_datetime then info.datetime_min.map (fun a => [a])
  else if info.is_before_datetime then info.datetime_max.map (fun a => [a])
  else if info.is_between_datetime then
    match info.datetime_min, info.datetime_max with
    | some a, some b => some [a, b]
    | _, _ => none
  else none

end DateTimeInformation

/-- The `min ≤ max` ordering invariant on the present bounds of a value. -/
def boundsOrdered (info : DateTimeInformation) : Prop :=
  ∀ a b, info.datetime_min = some a → info.datetime_max = some b → a.utc ≤ b.utc

/-- Both present bounds have the same awareness (both naive or both aware), the
precondition for Python to define an order between them at all. -/
def boundsAligned (info : DateTimeInformation) : Prop :=
  ∀ a b, info.datetime_min = some a → info.datetime_max = some b → a.tz.isSome = b.tz.isSome

instance (info : DateTimeInformation) : Decidable (boundsOrdered info) := by
  unfold boundsOrdered
  match info with
  | ⟨some a, some b, e⟩ =>
      refine if h : a.utc ≤ b.utc then .isTrue ?_ else .isFalse ?_
      · intro x y hx hy
        simp only [Option.some.injEq] at hx hy
        simpa [← hx, ← hy] using h
      · intro hc
        exact h (hc a b rfl rfl)
  | ⟨some a, none, e⟩ => exact .isTrue (by intro x y _ hy; simp at hy)
  | ⟨none, mx, e⟩ => exact .isTrue (by intro x y hx _; simp at hx)

instance (info : DateTimeInformation) : Decidable (boundsAligned info) := by
  unfold boundsAligned
  match info with
  | ⟨some a, some b, e⟩ =>
      refine if h : a.tz.isSome = b.tz.isSome then .isTrue ?_ else .isFalse ?_
      · intro x y hx hy
        simp only [Option.some.injEq] at hx hy
        simpa [← hx, ← hy] using h
      · intro hc
        exact h (hc a b rfl rfl)
  | ⟨some a, none, e⟩ => exact .isTrue (by intro x y _ hy; simp at hy)
  | ⟨none, mx, e⟩ => exact .isTrue (by intro x y hx _; simp at hx)

theorem pyLt_iff (a b : PyDateTime) : PyDateTime.pyLt a b = true ↔ a.utc < b.utc := by
  simp [PyDateTime.pyLt]

theorem utc_addUsec (a : PyDateTime) (k : Int) : (a.addUsec k).utc = a.utc + k := by
  simp [PyDateTime.addUsec, PyDateTime.utc]; ring

/-- C1 (counterexample): the two postprocessing operations do NOT preserve the
`min ≤ max` ordering.  `push_dates_above_threshold 9` on the exact between
range [08:00, 10:00] pushes only the lower bound (hour 8 lies in `[1, 9)` but
hour 10 does not), producing [20:00, 10:00]; and
`push_to_next_day_if_before_time` on the whole day 2024-01-10 with reference
2024-01-10 12:00 pushes only the midnight lower bound (23:59:59 is not before
noon), producing min = 2024-01-11 00:00 > max = 2024-01-10 23:59:59. -/
theorem C1_push_ops_break_order :
    ((DateTimeInformation.mk (some ⟨28800000000, none⟩) (some ⟨36000000000, none⟩)
        true).push_dates_above_threshold 9).datetime_min = some ⟨72000000000, none⟩ ∧
    ((DateTimeInformation.mk (some ⟨28800000000, none⟩) (some ⟨36000000000, none⟩)
        true).push_dates_above_threshold 9).datetime_max = some ⟨36000000000, none⟩ ∧
    ¬ boundsOrdered ((DateTimeInformation.mk (some ⟨28800000000, none⟩)
        (some ⟨36000000000, none⟩) true).push_dates_above_threshold 9) ∧
    boundsOrdered (({} : DateTimeInformation).set_as_date (mkDt 2024 1 10 0 0 0 none)) ∧
    ¬ boundsOrdered ((({} : DateTimeInformation).set_as_date
        (mkDt 2024 1 10 0 0 0 none)).push_to_next_day_if_before_time
          (mkDt 2024 1 10 12 0 0 none)) := by decide

/-- C1 (amended): the construction operations (`set_as_date`,
`set_as_exact_datetime`, `set_as_between_datetime`, the morning/afternoon
constructors) and `localize_to_timezone` preserve the `min ≤ max` ordering of
present bounds; the two push operations may violate it (see the
counterexample). -/
theorem C1_construction_and_localize_preserve_order
    (info : DateTimeInformation) (d s e : PyDateTime) (ex : Bool) (tzOff : Int)
    (hord : boundsOrdered info) (halign : boundsAligned info)
    (hse : s.tz.isSome = e.tz.isSome) :
    boundsOrdered (info.set_as_date d) ∧
    boundsOrdered (info.set_as_exact_datetime d) ∧
    boundsOrdered (info.set_as_between_datetime s e ex) ∧
    boundsOrdered (info.set_as_morning_datetime d) ∧
    boundsOrdered (info.set_as_afternoon_datetime d) ∧
    boundsOrdered (info.set_as_morning_afternoon_datetime d) ∧
    boundsOrdered (info.localize_to_timezone tzOff) := by
  refine ⟨?_, ?_, ?_, ?_, ?_, ?_, ?_⟩
  · intro a b ha hb
    simp only [DateTimeInformation.set_as_date, Option.some.injEq] at ha hb
    subst ha; subst hb
    simp [combineDate, PyDateTime.utc, TIME_MIN_U, TIME_MAX_U]
  · intro a b ha hb
    simp only [DateTimeInformation.set_as_exact_datetime, Option.some.injEq] at ha hb
    subst ha; subst hb
    exact le_refl _
  · intro a b ha hb
    unfold DateTimeInformation.set_as_between_datetime at ha hb
    cases hc : (PyDateTime.pyLt s e &&
        !(s.wall == TIME_MIN_U && e.wall == TIME_MAX_U)) with
    | false => rw [hc] at ha hb; simp at ha hb; exact hord a b ha hb
    | true =>
        rw [hc] at ha hb; simp at ha hb
        subst ha; subst hb
        have := (Bool.and_eq_true _ _).mp hc
        exact le_of_lt ((pyLt_iff s e).mp this.1)
  · intro a b ha hb
    simp only [DateTimeInformation.set_as_morning_datetime, Option.some.injEq] at ha hb
    subst ha; subst hb
    simp [combineDate, PyDateTime.utc, TIME_MIN_U, TIME_MORNING_END_U]
  · intro a b ha hb
    simp only [DateTimeInformation.set_as_afternoon_datetime, Option.some.injEq] at ha hb
    subst ha; subst hb
    simp only [combineDate, PyDateTime.utc, PyDateTime.addUsec, TIME_AFTERNOON_END_U,
      TIME_MORNING_END_U, usecPerSec, Option.getD_none]
    omega
  · intro a b ha hb
    simp only [DateTimeInformation.set_as_morning_afternoon_datetime, Option.some.injEq] at ha hb
    subst ha; subst hb
    simp [combineDate, PyDateTime.utc, TIME_MIN_U, TIME_AFTERNOON_END_U]
  · intro a b ha hb
    simp only [DateTimeInformation.localize_to_timezone, Option.map_eq_some'] at ha hb
    obtain ⟨a0, ha0, rfl⟩ := ha
    obtain ⟨b0, hb0, rfl⟩ := hb
    have hord' := hord a0 b0 ha0 hb0
    have halign' := halign a0 b0 ha0 hb0
    cases hta : a0.tz with
    | none =>
        cases htb : b0.tz with
        | none =>
            simp [hta, htb, PyDateTime.utc] at hord' ⊢
            omega
        | some v => rw [hta, htb] at halign'; simp at halign'
    | some u =>
        cases htb : b0.tz with
        | none => rw [hta, htb] at halign'; simp at halign'
        | some v =>
            simp [hta, htb, PyDateTime.utc] at hord' ⊢
            omega

theorem C1_preserve_order_witness :
    boundsOrdered (({} : DateTimeInformation).set_as_date (mkDt 2024 3 5 9 0 0 none)) ∧
    boundsOrdered (({} : DateTimeInformation).set_as_exact_datetime (mkDt 2024 3 5 9 0 0 none)) ∧
    boundsOrdered (({} : DateTimeInformation).set_as_between_datetime
      (mkDt 2024 3 5 9 0 0 none) (mkDt 2024 3 5 11 0 0 none) true) ∧
    boundsOrdered (({} : DateTimeInformation).set_as_morning_datetime (mkDt 2024 3 5 9 0 0 none)) ∧
    boundsOrdered (({} : DateTimeInformation).set_as_afternoon_datetime
      (mkDt 2024 3 5 9 0 0 none)) ∧
    boundsOrdered (({} : DateTimeInformation).set_as_morning_afternoon_datetime
      (mkDt 2024 3 5 9 0 0 none)) ∧
    boundsOrdered (({} : DateTimeInformation).localize_to_timezone 3600000000) :=
  C1_construction_and_localize_preserve_order {} (mkDt 2024 3 5 9 0 0 none)
    (mkDt 2024 3 5 9 0 0 none) (mkDt 2024 3 5 11 0 0 none) true 3600000000
    (by decide) (by decide) (by decide)

/-- C6: `push_to_next_day_if_before_time` never decreases a present bound —
each present bound is either unchanged or advanced by exactly one day — and a
between-range whose `is_exact_date_range` flag is false is returned completely
unchanged. -/
theorem C6_push_forward_monotone (info : DateTimeInformation) (ref : PyDateTime) :
    ((info.push_to_next_day_if_before_time ref).datetime_min = info.datetime_min ∨
      (info.push_to_next_day_if_before_time ref).datetime_min =
        info.datetime_min.map (fun a => a.addUsec usecPerDay)) ∧
    ((info.push_to_next_day_if_before_time ref).datetime_max = info.datetime_max ∨
      (info.push_to_next_day_if_before_time ref).datetime_max =
        info.datetime_max.map (fun a => a.addUsec usecPerDay)) ∧
    (∀ a b, info.datetime_min = some a →
      (info.push_to_next_day_if_before_time ref).datetime_min = some b → a.utc ≤ b.utc) ∧
    (∀ a b, info.datetime_max = some a →
      (info.push_to_next_day_if_before_time ref).datetime_max = some b → a.utc ≤ b.utc) ∧
    (info.is_between_datetime = true → info.is_exact_date_range = false →
      info.push_to_next_day_if_before_time ref = info) ∧
    (info.push_to_next_day_if_before_time ref).is_exact_date_range =
      info.is_exact_date_range := by
  have utc_day : ∀ a : PyDateTime, a.utc ≤ (a.addUsec usecPerDay).utc := by
    intro a
    rw [utc_addUsec]
    simp [usecPerDay]
  have same_le : ∀ a b : PyDateTime, some a = some b → a.utc ≤ b.utc := by
    intro a b h
    exact le_of_eq (congrArg PyDateTime.utc (Option.some.inj h))
  by_cases h1 : info.is_between_datetime = true
  · by_cases h2 : info.is_exact_date_range = false
    · have heq : info.push_to_next_day_if_before_time ref = info := by
        unfold DateTimeInformation.push_to_next_day_if_before_time
        rw [if_pos h1, if_pos h2]
      rw [heq]
      refine ⟨Or.inl rfl, Or.inl rfl, ?_, ?_, fun _ _ => rfl, rfl⟩
      · intro a b ha hb
        rw [ha] at hb
        exact same_le a b hb
      · intro a b ha hb
        rw [ha] at hb
        exact same_le a b hb
    · obtain ⟨mn, mx, ex⟩ := info
      match mn, mx with
      | none, _ =>
          simp [DateTimeInformation.is_between_datetime] at h1
      | some a0, none =>
          simp [DateTimeInformation.is_between_datetime] at h1
      | some a0, some b0 =>
          by_cases hlt : PyDateTime.pyLt a0 ref = true
          · have heq : (DateTimeInformation.mk (some a0) (some b0)
                ex).push_to_next_day_if_before_time ref =
                DateTimeInformation.mk (some (a0.addUsec usecPerDay))
                  (some (b0.addUsec usecPerDay)) ex := by
              unfold DateTimeInformation.push_to_next_day_if_before_time
              rw [if_pos h1, if_neg h2]
              simp only [hlt, if_true]
            rw [heq]
            refine ⟨Or.inr rfl, Or.inr rfl, ?_, ?_, fun _ hf => absurd hf h2, rfl⟩
            · intro a b ha hb
              simp only [Option.some.injEq] at ha hb
              rw [← ha, ← hb]
              exact utc_day a0
            · intro a b ha hb
              simp only [Option.some.injEq] at ha hb
              rw [← ha, ← hb]
              exact utc_day b0
          · have heq : (DateTimeInformation.mk (some a0) (some b0)
                ex).push_to_next_day_if_before_time ref =
                DateTimeInformation.mk (some a0) (some b0) ex := by
              unfold DateTimeInformation.push_to_next_day_if_before_time
              rw [if_pos h1, if_neg h2]
              simp [hlt]
            rw [heq]
            refine ⟨Or.inl rfl, Or.inl rfl, ?_, ?_, fun _ hf => absurd hf h2, rfl⟩
            · intro a b ha hb
              rw [ha] at hb
              exact same_le a b hb
            · intro a b ha hb
              rw [ha] at hb
              exact same_le a b hb
  · have heq : info.push_to_next_day_if_before_time ref =
        DateTimeInformation.mk
          (info.datetime_min.map
            (fun a => if PyDateTime.pyLt a ref then a.addUsec usecPerDay else a))
          (info.datetime_max.map
            (fun a => if PyDateTime.pyLt a ref then a.addUsec usecPerDay else a))
          info.is_exact_date_range := by
      unfold DateTimeInformation.push_to_next_day_if_before_time
      rw [if_neg h1]
    rw [heq]
    refine ⟨?_, ?_, ?_, ?_, fun hbt _ => absurd hbt h1, rfl⟩
    · cases hmn : info.datetime_min with
      | none => exact Or.inl (by simp)
      | some a0 =>
          by_cases hlt : PyDateTime.pyLt a0 ref = true
          · exact Or.inr (by simp [hlt])
          · exact Or.inl (by simp [hlt])
    · cases hmx : info.datetime_max with
      | none => exact Or.inl (by simp)
      | some a0 =>
          by_cases hlt : PyDateTime.pyLt a0 ref = true
          · exact Or.inr (by simp [hlt])
          · exact Or.inl (by simp [hlt])
    · intro a b ha hb
      simp only [ha, Option.map_some', Option.some.injEq] at hb
      subst hb
      split
      · exact utc_day a
      · exact le_refl _
    · intro a b ha hb
      simp only [ha, Option.map_some', Option.some.injEq] at hb
      subst hb
      split
      · exact utc_day a
      · exact le_refl _

theorem C6_push_forward_monotone_witness :
    (DateTimeInformation.mk (some (mkDt 2024 1 10 0 0 0 none))
        (some (mkDt 2024 1 10 11 59 59 none)) false).push_to_next_day_if_before_time
      (mkDt 2024 1 10 9 0 0 none) =
    DateTimeInformation.mk (some (mkDt 2024 1 10 0 0 0 none))
        (some (mkDt 2024 1 10 11 59 59 none)) false :=
  (C6_push_forward_monotone
    (DateTimeInformation.mk (some (mkDt 2024 1 10 0 0 0 none))
      (some (mkDt 2024 1 10 11 59 59 none)) false)
    (mkDt 2024 1 10 9 0 0 none)).2.2.2.2.1 (by decide) (by decide)

/-- C7: localizing a value whose present bounds already carry timezone
information changes nothing, and in particular running
`localize_to_timezone` a second time (with any timezone) after a first
localization is a no-op. -/
theorem C7_localize_idempotent (info : DateTimeInformation) (tzv tzv2 : Int) :
    (((∀ a, info.datetime_min = some a → a.tz.isSome = true) ∧
      (∀ b, info.datetime_max = some b → b.tz.isSome = true)) →
        info.localize_to_timezone tzv = info) ∧
    (info.localize_to_timezone tzv).localize_to_timezone tzv2 =
      info.localize_to_timezone tzv := by
  obtain ⟨mn, mx, ex⟩ := info
  constructor
  · rintro ⟨h1, h2⟩
    unfold DateTimeInformation.localize_to_timezone
    simp only [DateTimeInformation.mk.injEq]
    refine ⟨?_, ?_, trivial⟩
    · cases mn with
      | none => rfl
      | some a =>
          have := h1 a rfl
          cases hta : a.tz with
          | none => rw [hta] at this; simp at this
          | some u => simp [hta]
    · cases mx with
      | none => rfl
      | some a =>
          have := h2 a rfl
          cases hta : a.tz with
          | none => rw [hta] at this; simp at this
          | some u => simp [hta]
  · unfold DateTimeInformation.localize_to_timezone
    simp only [DateTimeInformation.mk.injEq]
    refine ⟨?_, ?_, trivial⟩
    · cases mn with
      | none => rfl
      | some a =>
          cases hta : a.tz with
          | none => simp [hta]
          | some u => simp [hta]
    · cases mx with
      | none => rfl
      | some a =>
          cases hta : a.tz with
          | none => simp [hta]
          | some u => simp [hta]

theorem C7_localize_idempotent_witness :
    (DateTimeInformation.mk (some (mkDt 2024 1 10 9 0 0 (some 3600000000)))
        (some (mkDt 2024 1 10 10 0 0 (some 3600000000))) true).localize_to_timezone
      (-18000000000) =
    DateTimeInformation.mk (some (mkDt 2024 1 10 9 0 0 (some 3600000000)))
        (some (mkDt 2024 1 10 10 0 0 (some 3600000000))) true :=
  (C7_localize_idempotent
    (DateTimeInformation.mk (some (mkDt 2024 1 10 9 0 0 (some 3600000000)))
      (some (mkDt 2024 1 10 10 0 0 (some 3600000000))) true)
    (-18000000000) 0).1 ⟨by decide, by decide⟩

/-- C8: when `start` is not strictly before `end`, or the pair degenerately
matches the whole-day encoding (start at 00:00:00 and end at 23:59:59),
`set_as_between_datetime` raises no error and leaves the value unchanged; on a
fresh value both bounds stay unset, so the value remains falsy. -/
theorem C8_invalid_between_unchanged (info : DateTimeInformation)
    (s e : PyDateTime) (ex : Bool) (halign : s.tz.isSome = e.tz.isSome)
    (h : ¬ s.utc < e.utc ∨ (s.wall = TIME_MIN_U ∧ e.wall = TIME_MAX_U)) :
    info.set_as_between_datetime s e ex = info ∧
    (({} : DateTimeInformation).set_as_between_datetime s e ex).truthy = false := by
  have hc : (PyDateTime.pyLt s e &&
      !(s.wall == TIME_MIN_U && e.wall == TIME_MAX_U)) = false := by
    rcases h with h | ⟨h1, h2⟩
    · have : PyDateTime.pyLt s e = false := by
        simp [PyDateTime.pyLt, h]
      simp [this]
    · simp [h1, h2]
  constructor
  · unfold DateTimeInformation.set_as_between_datetime
    rw [hc]
    simp
  · unfold DateTimeInformation.set_as_between_datetime
    rw [hc]
    simp [DateTimeInformation.truthy]

theorem C8_invalid_between_unchanged_witness :
    (DateTimeInformation.mk (some (mkDt 2024 1 10 9 0 0 none))
        (some (mkDt 2024 1 10 10 0 0 none)) true).set_as_between_datetime
      (mkDt 2024 2 3 15 0 0 none) (mkDt 2024 2 3 13 0 0 none) true =
    DateTimeInformation.mk (some (mkDt 2024 1 10 9 0 0 none))
        (some (mkDt 2024 1 10 10 0 0 none)) true ∧
    (({} : DateTimeInformation).set_as_between_datetime
      (mkDt 2024 2 3 15 0 0 none) (mkDt 2024 2 3 13 0 0 none) true).truthy = false :=
  C8_invalid_between_unchanged
    (DateTimeInformation.mk (some (mkDt 2024 1 10 9 0 0 none))
      (some (mkDt 2024 1 10 10 0 0 none)) true)
    (mkDt 2024 2 3 15 0 0 none) (mkDt 2024 2 3 13 0 0 none) true (by decide)
    (Or.inl (by decide))

/-!
String machinery.  Phrases are `List Char`.  The regular expressions of
`dates.py` are small: alternations of literals, optional groups, bounded digit
runs and whitespace stars.  They are embedded as backtracking matchers: a
sub-pattern produces its candidate `(capture, rest)` splits in the order the
regex engine would try them (greedy / present-first / alternation order), and
`List.findSome?` over those candidates is exactly the engine's backtracking.
`re.search` semantics (leftmost match wins) is a scan over the suffixes of the
input.  Captures are slices of the original input, so case-sensitive
comparisons performed by the Python code on captured text are preserved even
where the pattern itself matched case-insensitively.
-/

/-- Python `needle in hay` (contiguous substring). -/
def isSubstrB (needle : List Char) : List Char → Bool
  | [] => needle.isEmpty
  | c :: t => needle.isPrefixOf (c :: t) || isSubstrB needle t

/-- A word character for `\b` (`[A-Za-z0-9_]` over ASCII input). -/
def isWordCharB (c : Char) : Bool := c.isAlphanum || c == '_'

def boundaryBeforeOk (prev : Option Char) : Bool :=
  match prev with
  | none => true
  | some c => !isWordCharB c

def boundaryAfterOk (rest : List Char) : Bool :=
  match rest with
  | [] => true
  | c :: _ => !isWordCharB c

/-- `re.search(r"\bN\b", hay)` for a literal `N` that starts and ends with a
word character. -/
def boundedSearchAux (needle : List Char) (prev : Option Char) : List Char → Bool
  | [] => boundaryBeforeOk prev && needle.isPrefixOf ([] : List Char)
  | c :: t =>
      (boundaryBeforeOk prev && needle.isPrefixOf (c :: t) &&
        boundaryAfterOk ((c :: t).drop needle.length)) ||
      boundedSearchAux needle (some c) t

def boundedSearch (needle hay : List Char) : Bool := boundedSearchAux needle none hay

/-- Python `hay.replace(needle, repl)`: left-to-right, non-overlapping.  The
fuel argument (initialised to `hay.length`) only serves structural
termination; every needle used by the rules is nonempty, so each step consumes
at least one character of `hay` and the fuel never runs out. -/
def replaceAllAux (needle repl : List Char) : Nat → List Char → List Char
  | 0, hay => hay
  | fuel + 1, hay =>
      match hay with
      | [] => []
      | c :: t =>
        if needle ≠ [] && needle.isPrefixOf (c :: t) then
          repl ++ replaceAllAux needle repl fuel ((c :: t).drop needle.length)
        else c :: replaceAllAux needle repl fuel t

def replaceAllB (needle repl hay : List Char) : List Char :=
  replaceAllAux needle repl hay.length hay

/-- Python `s.strip()`. -/
def stripB (s : List Char) : List Char :=
  ((s.dropWhile Char.isWhitespace).reverse.dropWhile Char.isWhitespace).reverse

def lowerL (s : List Char) : List Char := s.map Char.toLower

/-- `string.punctuation` membership (ASCII). -/
def isAsciiPunct (c : Char) : Bool :=
  (33 ≤ c.toNat && c.toNat ≤ 47) || (58 ≤ c.toNat && c.toNat ≤ 64) ||
  (91 ≤ c.toNat && c.toNat ≤ 96) || (123 ≤ c.toNat && c.toNat ≤ 126)

/-- `int(s)` for a digit string. -/
def intFromDigits (s : List Char) : Int :=
  s.foldl (fun n c => 10 * n + ((c.toNat : Int) - 48)) 0

/-- `int(s)`, raising `ValueError` unless `s` is a nonempty digit string (the
only strings the rules ever feed to `int` are captures made of digits, or
empty slices). -/
def strToIntE (s : List Char) : Except Unit Int :=
  if s ≠ [] ∧ s.all Char.isDigit then .ok (intFromDigits s) else .error ()

/-- Case-insensitive prefix test against a lowercase pattern literal. -/
def ciPrefixAt (pat hay : List Char) : Bool :=
  match pat, hay with
  | [], _ => true
  | _ :: _, [] => false
  | p :: ps, h :: hs => (h.toLower == p) && ciPrefixAt ps hs

/-- Alternation of case-sensitive literals: candidate `(capture, rest)` splits
in alternation order. -/
def altCandsCS (lits : List (List Char)) (s : List Char) : List (List Char × List Char) :=
  lits.filterMap (fun l => if l.isPrefixOf s then some (s.take l.length, s.drop l.length) else none)

/-- Alternation of case-insensitive lowercase literals: candidates in
alternation order, capturing the original-case slice. -/
def altCandsCI (lits : List (List Char)) (s : List Char) : List (List Char × List Char) :=
  lits.filterMap (fun l => if ciPrefixAt l s then some (s.take l.length, s.drop l.length) else none)

/-- Make a required group optional (`(...)?`): present-first, then empty. -/
def optCands (cands : List (List Char × List Char)) (s : List Char) :
    List (List Char × List Char) :=
  cands ++ [([], s)]

def digitRunLen (s : List Char) : Nat := (s.takeWhile Char.isDigit).length

/-- `\d{lo,hi}`: candidate splits, greedy first. -/
def digitCands (lo hi : Nat) (s : List Char) : List (List Char × List Char) :=
  let top := min hi (digitRunLen s)
  (List.range (top + 1)).reverse.filterMap
    (fun n => if lo ≤ n then some (s.take n, s.drop n) else none)

/-- `\s*` where the following token cannot match whitespace: greedy skip. -/
def wsSkip (s : List Char) : List Char := s.dropWhile Char.isWhitespace

/-- `\s*` with backtracking: candidate splits, greedy first. -/
def wsCands (s : List Char) : List (List Char × List Char) :=
  let top := (s.takeWhile Char.isWhitespace).length
  (List.range (top + 1)).reverse.map (fun n => (s.take n, s.drop n))

def strL (s : String) : List Char := s.data

example : isSubstrB (strL "this") (strL "match this one") = true := by decide
example : isSubstrB (strL "this") (strL "asap") = false := by decide
example : boundedSearch (strL "this week") (strL "see you this week ok") = true := by decide
example : boundedSearch (strL "this week") (strL "this weekend") = false := by decide
example : replaceAllB (strL "next") [] (strL "next monday") = strL " monday" := by decide
example : stripB (strL "  monday ") = strL "monday" := by decide
example : digitCands 1 2 (strL "130 x") = [(strL "13", strL "0 x"), (strL "1", strL "30 x")] := by
  decide

def candBind {α β : Type} (xs : List α) (f : α → List β) : List β := (xs.map f).flatten

instance {ε α : Type} [DecidableEq ε] [DecidableEq α] : DecidableEq (Except ε α)
  | .error e1, .error e2 =>
      if h : e1 = e2 then .isTrue (by rw [h]) else .isFalse (by intro hc; cases hc; exact h rfl)
  | .error _, .ok _ => .isFalse (by intro hc; cases hc)
  | .ok _, .error _ => .isFalse (by intro hc; cases hc)
  | .ok a1, .ok a2 =>
      if h : a1 = a2 then .isTrue (by rw [h]) else .isFalse (by intro hc; cases hc; exact h rfl)

/-- `MONTH_NUMS_LOOKUP` in dict order. -/
def MONTH_NUMS_LOOKUP : List (List Char × Int) :=
  [(strL "jan", 1), (strL "january", 1), (strL "feb", 2), (strL "february", 2),
   (strL "mar", 3), (strL "march", 3), (strL "apr", 4), (strL "april", 4),
   (strL "may", 5), (strL "jun", 6), (strL "june", 6), (strL "jul", 7), (strL "july", 7),
   (strL "aug", 8), (strL "august", 8), (strL "sep", 9), (strL "september", 9),
   (strL "oct", 10), (strL "october", 10), (strL "nov", 11), (strL "november", 11),
   (strL "dec", 12), (strL "december", 12)]

/-- `MONTH_OR_ABBRV_RE_STRING` alternation order (the dict key order). -/
def monthKeys : List (List Char) := MONTH_NUMS_LOOKUP.map (fun p => p.1)

def monthLookup (s : List Char) : Option Int :=
  (MONTH_NUMS_LOOKUP.find? (fun p => p.1 == s)).map (fun p => p.2)

/-- `self.month_abbrvs = "jan|feb|mar|apr|may|june|july|aug|sep|oct|nov|dec"`. -/
def monthAbbrvAlts : List (List Char) :=
  [strL "jan", strL "feb", strL "mar", strL "apr", strL "may", strL "june",
   strL "july", strL "aug", strL "sep", strL "oct", strL "nov", strL "dec"]

/-- The month alternation of `HYPHENATED_MONTH_PATTERN` (case-sensitive, in
pattern order: `Jan|jan|January|january|...`). -/
def hyphenatedMonthAlts : List (List Char) :=
  [strL "Jan", strL "jan", strL "January", strL "january",
   strL "Feb", strL "feb", strL "February", strL "february",
   strL "Mar", strL "mar", strL "March", strL "march",
   strL "Apr", strL "apr", strL "April", strL "april",
   strL "May", strL "may",
   strL "Jun", strL "jun", strL "June", strL "june",
   strL "Jul", strL "jul", strL "July", strL "july",
   strL "Aug", strL "aug", strL "August", strL "august",
   strL "Sep", strL "sep", strL "September", strL "september",
   strL "Oct", strL "oct", strL "October", strL "october",
   strL "Nov", strL "nov", strL "November", strL "november",
   strL "Dec", strL "dec", strL "December", strL "december"]

def litAm : List Char := strL "am"
def litPm : List Char := strL "pm"

/-- `:?` candidates: colon-present first. -/
def colonCands (s : List Char) : List (List Char × List Char) :=
  (match s with
   | ':' :: t => [([':'], t)]
   | _ => []) ++ [([], s)]

/-- `\d{1,2}:?\d{0,2}` (the `hour_minute` group): candidate splits in the
order the regex engine tries them. -/
def hmCands (s : List Char) : List (List Char × List Char) :=
  candBind (digitCands 1 2 s) (fun p1 =>
    candBind (colonCands p1.2) (fun p2 =>
      (digitCands 0 2 p2.2).map (fun p3 => (p1.1 ++ p2.1 ++ p3.1, p3.2))))

/-- `\s*(am|pm)?`: candidates (present first), capturing the original slice. -/
def ampmOptCands (s : List Char) : List (List Char × List Char) :=
  optCands (altCandsCI [litAm, litPm] (wsSkip s)) (wsSkip s)

/-- `_time_qualifier_to_int`: am/pm and threshold disambiguation.  The empty
capture plays the role of Python's `None`/falsy qualifier; the comparison with
`"pm"` is case-sensitive on the captured slice, as in the source. -/
def timeQualifierToInt (t thr : Int) (q : List Char) : Int :=
  if q = litPm ∧ t < 12 then t + 12
  else if t < thr then t + 12
  else t

/-- `_parse_hour_minute_str`: `.error` models a `ValueError` escaping the
rule (`int("")` when a colon capture has an empty side, or a split that does
not produce exactly two parts). -/
def parseHourMinuteStr (hm : List Char) : Except Unit (Option (Int × Int)) :=
  if hm = [] then .ok none
  else if hm.contains ':' then
    match hm.splitOn ':' with
    | [a, b] => do
        let h ← strToIntE a
        let m ← strToIntE b
        return some (h, m)
    | _ => .error ()
  else if hm.length < 3 then do
    let h ← strToIntE hm
    return some (h, 0)
  else if hm.length = 3 then do
    let h ← strToIntE (hm.take 1)
    let m ← strToIntE ((hm.drop 1).take 2)
    return some (h, m)
  else do
    let h ← strToIntE (hm.take 2)
    let m ← strToIntE ((hm.drop 2).take 2)
    return some (h, m)

/-- First case-insensitive match of one of `alts` (all nonempty) over the
suffixes of the input, returning the original-case capture. -/
def searchAltsCI (alts : List (List Char)) : List Char → Option (List Char)
  | [] => none
  | c :: t =>
      match (altCandsCI alts (c :: t)).head? with
      | some p => some p.1
      | none => searchAltsCI alts t

/-- The day-specifier alternation of `_match_and_convert_day_specifier`,
expanded in the order the regex engine tries the branches. -/
def daySpecAlts : List (List Char) :=
  [strL "today", strL "tomorrow", strL "monday", strL "mon", strL "tues", strL "tuesday",
   strL "tue", strL "wednesday", strL "wed", strL "thurs", strL "thursday", strL "thu",
   strL "friday", strL "fri", strL "saturday", strL "sat", strL "sunday", strL "sun"]

/-- `_match_and_convert_day_specifier`: map a weekday token (or
today/tomorrow) to a concrete day at or after `message_day`.  The equality and
`startswith` tests are case-sensitive on the captured slice, as in the
source. -/
def matchAndConvertDaySpecifier (date : List Char) (message_day : PyDateTime) :
    Option PyDateTime :=
  match searchAltsCI daySpecAlts date with
  | none => none
  | some cap =>
      let n : Int :=
        if cap = strL "tomorrow" then message_day.weekday + 1
        else if (strL "mon").isPrefixOf cap then 0
        else if (strL "tue").isPrefixOf cap then 1
        else if (strL "wed").isPrefixOf cap then 2
        else if (strL "thu").isPrefixOf cap then 3
        else if (strL "fri").isPrefixOf cap then 4
        else if (strL "sat").isPrefixOf cap then 5
        else if (strL "sun").isPrefixOf cap then 6
        else message_day.weekday
      let du := n - message_day.weekday
      let du2 := if du < 0 then 7 + du else du
      some (message_day.addUsec (du2 * usecPerDay))

/-- The date-specifier pattern of `_time_range_between`:
`(month)(\s*)(\d{1,2})`, searched case-insensitively. -/
def datePatAt (s : List Char) : Option (Int × Int) :=
  (altCandsCI monthKeys s).findSome? (fun p =>
    (digitCands 1 2 (wsSkip p.2)).findSome? (fun q =>
      (monthLookup (lowerL p.1)).map (fun mn => (mn, intFromDigits q.1))))

def searchDatePat : List Char → Option (Int × Int)
  | [] => none
  | c :: t =>
      match datePatAt (c :: t) with
      | some r => some r
      | none => searchDatePat t

/-- `message_day.replace(month=m, day=dd)`: Python's `replace` validates the
fields and raises `ValueError` on an invalid day for the month. -/
def replaceMonthDayE (d : PyDateTime) (m dd : Int) : Except Unit PyDateTime :=
  if 1 ≤ m ∧ m ≤ 12 ∧ 1 ≤ dd ∧ dd ≤ daysInMonth d.year m then
    .ok { d with usec := daysFromCivil d.year m dd * usecPerDay + d.wall }
  else .error ()

example : parseHourMinuteStr (strL "1:") = .error () := by decide
example : parseHourMinuteStr (strL "130") = .ok (some (1, 30)) := by decide
example : parseHourMinuteStr (strL "1130") = .ok (some (11, 30)) := by decide
example : parseHourMinuteStr (strL "9") = .ok (some (9, 0)) := by decide
example : parseHourMinuteStr (strL "9:30") = .ok (some (9, 30)) := by decide
example : timeQualifierToInt 1 9 litPm = 13 := by decide
example : timeQualifierToInt 9 9 [] = 9 := by decide
example : timeQualifierToInt 8 9 [] = 20 := by decide
example : searchDatePat (strL "1pm to 3pm on Feb 3") = some (2, 3) := by decide
example : hmCands (strL "1: to") = [(strL "1:", strL " to"), (strL "1", strL ": to")] := by decide

/-- A rule outcome: `.error` models a `ValueError` escaping the rule function
(caught by the `parse_date` loop), `.ok none` a non-match, `.ok (some d)` a
produced value. -/
abbrev RuleResult := Except Unit (Option DateTimeInformation)

def kwThisWeek : List Char := strL "this week"
def kwThisWeekend : List Char := strL "this weekend"
def kwNext : List Char := strL "next"
def kwThis : List Char := strL "this"
def kwAt : List Char := strL "at"
def kwAround : List Char := strL "around"
def kwTomorrow : List Char := strL "tomorrow"
def kwToday : List Char := strL "today"
def kwEndOfMonth : List Char := strL "end of month"
def kwBeginningOf : List Char := strL "beginning of "
def kwMiddleOf : List Char := strL "middle of "
def kwEndOf : List Char := strL "end of "
def asapKeywords : List (List Char) :=
  [strL "asap", strL "as soon as possible", strL "immediate", strL "immediately"]
def kwMorning : List Char := strL "morning"
def kwAfternoon : List Char := strL "afternoon"
def kwEvening : List Char := strL "evening"
def kwLater : List Char := strL "later"
def kwEarlier : List Char := strL "earlier"
def kwBefore : List Char := strL "before"
def kwAfter : List Char := strL "after"
def kwOr : List Char := strL "or"
def kwAnd : List Char := strL "and"
def kwTo : List Char := strL "to"
def litDash : List Char := strL "-"
def litAtSign : List Char := strL "@"

/-- `_weekday_converter`: `\bthis week\b` (case-sensitive); weekday 0-2 gives
tomorrow, otherwise `message_day + (7 - weekday)` days. -/
def weekday_converter (message_day : PyDateTime) (date : List Char) : RuleResult :=
  if boundedSearch kwThisWeek date then
    let day_of_week := message_day.weekday
    if day_of_week < 3 then
      .ok (some (({} : DateTimeInformation).set_as_date (message_day.addUsec usecPerDay)))
    else
      .ok (some (({} : DateTimeInformation).set_as_date
        (message_day.addUsec ((7 - day_of_week) * usecPerDay))))
  else .ok none

/-- Match `HYPHENATED_MONTH_PATTERN` at the start of `s`:
`(early|mid)?/?(early|mid|late)-?\s*(month)`, case-sensitive; returns
`(day_part_1, day_part_2, month)` captures. -/
def emlMatchAt (s : List Char) : Option (List Char × List Char × List Char) :=
  (optCands (altCandsCS [strL "early", strL "mid"] s) s).findSome? (fun p1 =>
    (optCands (altCandsCS [strL "/"] p1.2) p1.2).findSome? (fun p2 =>
      (altCandsCS [strL "early", strL "mid", strL "late"] p2.2).findSome? (fun p3 =>
        (optCands (altCandsCS [litDash] p3.2) p3.2).findSome? (fun p4 =>
          ((altCandsCS hyphenatedMonthAlts (wsSkip p4.2)).head?).map (fun p5 =>
            (p1.1, p3.1, p5.1))))))

def searchEml : List Char → Option (List Char × List Char × List Char)
  | [] => none
  | c :: t =>
      match emlMatchAt (c :: t) with
      | some r => some r
      | none => searchEml t

/-- `_early_mid_late_month`: early/mid gives day 1/15, late the last day of
the month; the year rolls forward when the month has already passed.  The
source localizes the naive date to the message timezone when the timestamp is
aware, and `set_as_date` then strips the tzinfo again via `datetime.combine`;
both steps are reproduced. -/
def early_mid_late_month (message_timestamp : PyDateTime) (date : List Char) : RuleResult :=
  match searchEml date with
  | none => .ok none
  | some (d1, d2, mcap) =>
      match monthLookup (lowerL (stripB mcap)) with
      | none => .ok none
      | some month_int =>
          let year := if month_int < message_timestamp.month then message_timestamp.year + 1
                      else message_timestamp.year
          let sel := if d1 ≠ [] then d1 else d2
          let day := if sel = strL "early" then 1
                     else if sel = strL "mid" then 15
                     else daysInMonth year month_int
          .ok (some (({} : DateTimeInformation).set_as_date
            (mkDt year month_int day 0 0 0 message_timestamp.tz)))

/-- A dateparser result at exact midnight degrades to a whole day, otherwise
it becomes an exact instant (shared by `_time_qualifier` and
`_exception_safe_date_parse`). -/
def mkDateOrExact (p : PyDateTime) : DateTimeInformation :=
  if p.wall = TIME_MIN_U then ({} : DateTimeInformation).set_as_date p
  else ({} : DateTimeInformation).set_as_exact_datetime p

/-- `DateConverter._time_qualifier`: handles "next"/"this" by stripping the
word and delegating to dateparser (modelled by `dp`); "next" adds seven
days. -/
def time_qualifier_base (dp : List Char → Option PyDateTime) (date : List Char) :
    Option DateTimeInformation :=
  if isSubstrB kwNext date then
    match dp (stripB (replaceAllB kwNext [] date)) with
    | some p => some (mkDateOrExact (p.addUsec (7 * usecPerDay)))
    | none => none
  else if isSubstrB kwThis date then
    match dp (stripB (replaceAllB kwThis [] date)) with
    | some p => some (mkDateOrExact p)
    | none => none
  else none

/-- `AppointmentDateConverter._time_qualifier`: base first, then the
"around" -> "at" rewrite fed to dateparser. -/
def time_qualifier_appt (dp : List Char → Option PyDateTime) (date : List Char) : RuleResult :=
  match time_qualifier_base dp date with
  | some r => .ok (some r)
  | none =>
      if isSubstrB kwAround date then
        match dp (replaceAllB kwAround kwAt date) with
        | some p => .ok (some (mkDateOrExact p))
        | none => .ok none
      else .ok none

/-- `(\s*|~)`: the whitespace-star alternative first (greedy), then the
tilde. -/
def tildeOrWsCands (s : List Char) : List (List Char × List Char) :=
  wsCands s ++ (match s with
    | '~' :: t => [(['~'], t)]
    | _ => [])

/-- Rests after the `pre` group `kw\s*(at|around|@)?(\s*|~)` of the
tomorrow/today rules, in backtracking order. -/
def preQualRests (kw : List Char) (s : List Char) : List (List Char) :=
  if ciPrefixAt kw s then
    let r0 := s.drop kw.length
    candBind (wsCands r0) (fun w1 =>
      candBind (optCands (altCandsCI [kwAt, kwAround, litAtSign] w1.2) w1.2) (fun a1 =>
        (tildeOrWsCands a1.2).map (fun w2 => w2.2)))
  else []

/-- `\s*((or|and)\s*(later|earlier))?` candidates: present first; the capture
is the matched `prep_post` text. -/
def prepPostCands (s : List Char) : List (List Char × List Char) :=
  let s1 := wsSkip s
  optCands
    (candBind (altCandsCI [kwOr, kwAnd] s1) (fun p1 =>
      let w := p1.2.takeWhile Char.isWhitespace
      let r2 := p1.2.drop w.length
      (altCandsCI [kwLater, kwEarlier] r2).map (fun p2 => (p1.1 ++ w ++ p2.1, p2.2))))
    s1

/-- Captures of the tomorrow/today-qualifier pattern: pre flag, hour-minute,
am/pm, post flag, prep-post text (empty capture = absent group). -/
structure TqtG where
  pre : Bool
  hm : List Char
  tod : List Char
  post : Bool
  prep : List Char
deriving Repr, DecidableEq

def tqtMatchAt (kw : List Char) (s : List Char) : Option TqtG :=
  (((preQualRests kw s).map (fun r => (true, r))) ++ [(false, s)]).findSome? (fun pr =>
    (hmCands pr.2).findSome? (fun hp =>
      (ampmOptCands hp.2).findSome? (fun tp =>
        (optCands (altCandsCI [kw] tp.2) tp.2).findSome? (fun pp =>
          (prepPostCands pp.2).head?.map (fun qq =>
            ⟨pr.1, hp.1, tp.1, pp.1 ≠ [], qq.1⟩)))))

def searchTqt (kw : List Char) : List Char → Option TqtG
  | [] => none
  | c :: t =>
      match tqtMatchAt kw (c :: t) with
      | some g => some g
      | none => searchTqt kw t

/-- `_tomorrow_qualifier_time`. -/
def tomorrow_qualifier_time (thr : Int) (message_day : PyDateTime) (date : List Char) :
    RuleResult :=
  match searchTqt kwTomorrow date with
  | none => .ok none
  | some g =>
      if !g.pre && !g.post then .ok none
      else
        match parseHourMinuteStr g.hm with
        | .error _ => .error ()
        | .ok none => .ok none
        | .ok (some pt) =>
            let eh := timeQualifierToInt pt.1 thr g.tod
            let tmrw := (message_day.addUsec usecPerDay).replaceHourMinute eh pt.2
            if g.prep ≠ [] ∧ isSubstrB kwLater g.prep then
              .ok (some (({} : DateTimeInformation).set_as_after_datetime tmrw))
            else if g.prep ≠ [] ∧ isSubstrB kwEarlier g.prep then
              .ok (some (({} : DateTimeInformation).set_as_before_datetime tmrw))
            else .ok (some (({} : DateTimeInformation).set_as_exact_datetime tmrw))

/-- `_today_qualifier_time`. -/
def today_qualifier_time (thr : Int) (message_day : PyDateTime) (date : List Char) :
    RuleResult :=
  match searchTqt kwToday date with
  | none => .ok none
  | some g =>
      if !g.pre && !g.post then .ok none
      else
        match parseHourMinuteStr g.hm with
        | .error _ => .error ()
        | .ok none => .ok none
        | .ok (some pt) =>
            let eh := timeQualifierToInt pt.1 thr g.tod
            let md := message_day.replaceHourMinute eh pt.2
            if g.prep ≠ [] ∧ isSubstrB kwLater g.prep then
              .ok (some (({} : DateTimeInformation).set_as_after_datetime md))
            else if g.prep ≠ [] ∧ isSubstrB kwEarlier g.prep then
              .ok (some (({} : DateTimeInformation).set_as_before_datetime md))
            else .ok (some (({} : DateTimeInformation).set_as_exact_datetime md))

/-- Captures of the between-range pattern of `_time_range_between`. -/
structure TrbG where
  hmStart : List Char
  todStart : List Char
  hmEnd : List Char
  todEnd : List Char
deriving Repr, DecidableEq

def trbMatchAt (s : List Char) : Option TrbG :=
  (hmCands s).findSome? (fun h1 =>
    (ampmOptCands h1.2).findSome? (fun t1 =>
      (altCandsCI [kwTo, litDash] (wsSkip t1.2)).findSome? (fun sp =>
        (hmCands (wsSkip sp.2)).findSome? (fun h2 =>
          (ampmOptCands h2.2).head?.map (fun t2 =>
            ⟨h1.1, t1.1, h2.1, t2.1⟩)))))

def searchTrb : List Char → Option TrbG
  | [] => none
  | c :: t =>
      match trbMatchAt (c :: t) with
      | some g => some g
      | none => searchTrb t

/-- `_time_range_between`: `1pm to 3pm on Feb 3` and friends; an explicit
month/day specifier wins over a weekday specifier.  A hour-minute capture with
an empty colon side raises (`.error`), and so does an invalid
`replace(month=, day=)`. -/
def time_range_between (thr : Int) (message_day : PyDateTime) (date : List Char) :
    RuleResult :=
  match searchTrb date with
  | none => .ok none
  | some g =>
      match parseHourMinuteStr g.hmStart with
      | .error _ => .error ()
      | .ok none => .ok none
      | .ok (some pts) =>
          match parseHourMinuteStr g.hmEnd with
          | .error _ => .error ()
          | .ok none => .ok none
          | .ok (some pte) =>
              let hour_start := timeQualifierToInt pts.1 thr g.todStart
              let hour_end := timeQualifierToInt pte.1 thr g.todEnd
              match searchDatePat date with
              | some md0 =>
                  match replaceMonthDayE message_day md0.1 md0.2 with
                  | .error _ => .error ()
                  | .ok md =>
                      .ok (some (({} : DateTimeInformation).set_as_between_datetime
                        (md.replaceHourMinute hour_start pts.2)
                        (md.replaceHourMinute hour_end pte.2) true))
              | none =>
                  let md := (matchAndConvertDaySpecifier date message_day).getD message_day
                  .ok (some (({} : DateTimeInformation).set_as_between_datetime
                    (md.replaceHourMinute hour_start pts.2)
                    (md.replaceHourMinute hour_end pte.2) true))

/-- Captures of the open-range pattern of `_time_range`. -/
structure TrG where
  prepPre : List Char
  hm : List Char
  tod : List Char
  prepPost : List Char
deriving Repr, DecidableEq

def trMatchAt (s : List Char) : Option TrG :=
  (optCands (altCandsCI [kwBefore, kwAfter] (wsSkip s)) (wsSkip s)).findSome? (fun p1 =>
    (hmCands (wsSkip p1.2)).findSome? (fun h1 =>
      (ampmOptCands h1.2).findSome? (fun t1 =>
        (prepPostCands t1.2).head?.map (fun q => ⟨p1.1, h1.1, t1.1, q.1⟩))))

def searchTr : List Char → Option TrG
  | [] => none
  | c :: t =>
      match trMatchAt (c :: t) with
      | some g => some g
      | none => searchTr t

/-- `_time_range`: before/after or "or later/earlier" around a clock time;
only parses when a prep was captured. -/
def time_range (thr : Int) (message_day : PyDateTime) (date : List Char) : RuleResult :=
  match searchTr date with
  | none => .ok none
  | some g =>
      if g.prepPre = [] ∧ g.prepPost = [] then .ok none
      else
        match parseHourMinuteStr g.hm with
        | .error _ => .error ()
        | .ok none => .ok none
        | .ok (some pt) =>
            let eh := timeQualifierToInt pt.1 thr g.tod
            let md := (matchAndConvertDaySpecifier date message_day).getD message_day
            let parsed := md.replaceHourMinute eh pt.2
            if g.prepPre = kwBefore ∨ isSubstrB kwEarlier g.prepPost then
              .ok (some (({} : DateTimeInformation).set_as_before_datetime parsed))
            else if g.prepPre = kwAfter ∨ isSubstrB kwLater g.prepPost then
              .ok (some (({} : DateTimeInformation).set_as_after_datetime parsed))
            else .ok none

/-- `_singular_digit`: a 1-2 digit token with `0 < hour < 23` is an exact
instant at that hour on the message day. -/
def singular_digit (message_day : PyDateTime) (date : List Char) : RuleResult :=
  if date.length ≤ 2 ∧ date ≠ [] ∧ date.all Char.isDigit then
    let hour := intFromDigits date
    if 0 < hour ∧ hour < 23 then
      .ok (some (({} : DateTimeInformation).set_as_exact_datetime
        (message_day.replaceHour hour)))
    else .ok none
  else .ok none

/-- Match `APARTMENT_DATE_LIST_PATTERN` at the start of `s`:
`(\d+)(pm|am)[\s\-]*\d*(pm|am)?[\s\-]*(month)\s*(\d+)`, returning
`(hour1, time_of_day, month number, day)`. -/
def hrmdMatchAt (s : List Char) : Option (List Char × List Char × Int × Int) :=
  (digitCands 1 (digitRunLen s) s).findSome? (fun d1 =>
    (altCandsCI [litPm, litAm] d1.2).findSome? (fun t1 =>
      let r1 := t1.2.dropWhile (fun c => c.isWhitespace || c == '-')
      let d2 := r1.takeWhile Char.isDigit
      let r2 := r1.drop d2.length
      (optCands (altCandsCI [litPm, litAm] r2) r2).findSome? (fun t2 =>
        let r3 := t2.2.dropWhile (fun c => c.isWhitespace || c == '-')
        (altCandsCI monthKeys r3).findSome? (fun mc =>
          let r4 := wsSkip mc.2
          let dd := r4.takeWhile Char.isDigit
          if dd = [] then none
          else (monthLookup (lowerL mc.1)).map (fun mn =>
            (d1.1, t1.1, mn, intFromDigits dd))))))

def searchHrmd : List Char → Option (List Char × List Char × Int × Int)
  | [] => none
  | c :: t =>
      match hrmdMatchAt (c :: t) with
      | some g => some g
      | none => searchHrmd t

/-- `_hour_range_month_date`: apartment-list compact notation such as
`3pm -4pm - Sep 11`; an out-of-range day or hour makes `datetime(...)` raise
`ValueError`, which the rule catches itself and turns into a non-match. -/
def hour_range_month_date (thr : Int) (message_day : PyDateTime) (date : List Char) :
    RuleResult :=
  match searchHrmd date with
  | none => .ok none
  | some g =>
      let eh := timeQualifierToInt (intFromDigits g.1) thr g.2.1
      let year := message_day.year
      if 1 ≤ g.2.2.2 ∧ g.2.2.2 ≤ daysInMonth year g.2.2.1 ∧ 0 ≤ eh ∧ eh ≤ 23 then
        .ok (some (({} : DateTimeInformation).set_as_exact_datetime
          (mkDt year g.2.2.1 g.2.2.2 eh 0 0 none)))
      else .ok none

/-- `_exception_safe_date_parse`: a digit-only token of length at most two is
rejected before dateparser is consulted; a dateparser `IndexError` is folded
into `dp` returning `none`. -/
def exception_safe_date_parse (dp : List Char → Option PyDateTime) (date : List Char) :
    RuleResult :=
  if date.length ≤ 2 ∧ date ≠ [] ∧ date.all Char.isDigit then .ok none
  else
    match dp date with
    | none => .ok none
    | some p => .ok (some (mkDateOrExact p))

/-- `_weekend_converter`: `\bthis weekend\b` over the lowercased phrase;
Monday-Friday gives the coming Saturday, Saturday/Sunday the day itself. -/
def weekend_converter (message_day : PyDateTime) (date : List Char) : RuleResult :=
  if boundedSearch kwThisWeekend (lowerL date) then
    let day_of_week := message_day.weekday
    if day_of_week < 5 then
      .ok (some (({} : DateTimeInformation).set_as_date
        (message_day.addUsec ((5 - day_of_week) * usecPerDay))))
    else .ok (some (({} : DateTimeInformation).set_as_date message_day))
  else .ok none

/-- `_end_of_month`: the last day of the message month, localized to the
message timezone before `set_as_date` strips the tzinfo again. -/
def end_of_month (message_day : PyDateTime) (tzOff : Int) (date : List Char) : RuleResult :=
  if isSubstrB kwEndOfMonth date then
    let year := message_day.year
    let mon := message_day.month
    .ok (some (({} : DateTimeInformation).set_as_date
      (mkDt year mon (daysInMonth year mon) 0 0 0 (some tzOff))))
  else .ok none

/-- `re.match(rf"PREFIX ({month_abbrvs})", date, re.IGNORECASE)`: anchored at
the start; the capture keeps the original case, and the subsequent dict lookup
in the source is case-sensitive. -/
def qemCapture (kw : List Char) (date : List Char) : Option (List Char) :=
  if ciPrefixAt kw date then
    ((altCandsCI monthAbbrvAlts (date.drop kw.length)).head?).map (fun p => p.1)
  else none

/-- `_qualifier_exact_month`: beginning/middle/end of a named month. -/
def qualifier_exact_month (message_day : PyDateTime) (date : List Char) : RuleResult :=
  let year := message_day.year
  match (qemCapture kwBeginningOf date).bind monthLookup with
  | some m => .ok (some (({} : DateTimeInformation).set_as_date (mkDt year m 1 0 0 0 none)))
  | none =>
      match (qemCapture kwMiddleOf date).bind monthLookup with
      | some m => .ok (some (({} : DateTimeInformation).set_as_date (mkDt year m 15 0 0 0 none)))
      | none =>
          match (qemCapture kwEndOf date).bind monthLookup with
          | some m =>
              .ok (some (({} : DateTimeInformation).set_as_date
                (mkDt year m (daysInMonth year m) 0 0 0 none)))
          | none => .ok none

/-- `_asap`: keyword containment over the lowercased phrase yields the message
day as a whole day.  `parse_date` never supplies the `exact_match` kwarg, so
the substring mode is always the one taken in this pipeline. -/
def asap_rule (message_timestamp : PyDateTime) (date : List Char) : RuleResult :=
  let d := lowerL date
  if asapKeywords.any (fun w => isSubstrB w d) then
    .ok (some (({} : DateTimeInformation).set_as_date message_timestamp.toMidnight))
  else .ok none

def wordB (oc : Option Char) : Bool :=
  match oc with
  | none => false
  | some c => isWordCharB c

/-- `\b` between a previous and a next character. -/
def bCheck (prev next : Option Char) : Bool := wordB prev != wordB next

/-- Candidates for the trailing `(\b|th|rd|nd|st)` group of the
space-delimited-month pattern: the zero-width boundary first, then the ordinal
suffixes; each candidate carries the last consumed character (for later
boundary checks) and the rest. -/
def sdmSuffixCands (lastc : Option Char) (s : List Char) : List (Option Char × List Char) :=
  (if bCheck lastc s.head? then [(lastc, s)] else []) ++
  (altCandsCS [strL "th", strL "rd", strL "nd", strL "st"] s).map
    (fun p => (p.1.getLast?, p.2))

/-- One match of `\b(month) *(\d*)(\b|th|rd|nd|st)` at the current position
(`prev` is the character just before it).  The input is already lowercased, so
the month alternation is case-sensitive here, as in the source (the pattern is
compiled without flags). -/
def sdmMatchAt (prev : Option Char) (s : List Char) :
    Option (Int × Int × Option Char × List Char) :=
  if wordB prev then none
  else
    (altCandsCS monthKeys s).findSome? (fun mc =>
      let sp := mc.2.takeWhile (fun c => c == ' ')
      let r1 := mc.2.drop sp.length
      (digitCands 0 (digitRunLen r1) r1).findSome? (fun dc =>
        let lastc : Option Char :=
          match dc.1.getLast? with
          | some c => some c
          | none =>
              match sp.getLast? with
              | some c => some c
              | none => mc.1.getLast?
        ((sdmSuffixCands lastc dc.2).head?).map (fun suf =>
          (((MONTH_NUMS_LOOKUP.find? (fun p => p.1 == mc.1)).map (fun p => p.2)).getD 0,
           (if dc.1 = [] then 1 else intFromDigits dc.1), suf.1, suf.2))))

/-- `re.findall` over the pattern above: successive non-overlapping matches,
scanning left to right.  The fuel (initialised above the input length) only
serves structural termination; every match consumes at least the three
characters of a month abbreviation. -/
def sdmFindAllAux : Nat → Option Char → List Char → List (Int × Int)
  | 0, _, _ => []
  | fuel + 1, prev, s =>
      match sdmMatchAt prev s with
      | some r => (r.1, r.2.1) :: sdmFindAllAux fuel r.2.2.1 r.2.2.2
      | none =>
          match s with
          | [] => []
          | c :: t => sdmFindAllAux fuel (some c) t

/-- Python `min` over `(month, day)` tuples: lexicographic. -/
def minPairList (l : List (Int × Int)) : Int × Int :=
  match l with
  | [] => (0, 0)
  | p :: t =>
      t.foldl (fun acc q => if q.1 < acc.1 ∨ (q.1 = acc.1 ∧ q.2 < acc.2) then q else acc) p

/-- `_space_delimted_month`: lowercase, replace punctuation by spaces, find
all month mentions, keep the earliest `(month, day)`, roll the year forward on
wraparound, clamp the day into the month, and attach a morning/afternoon
bucket when the original phrase mentions one. -/
def space_delimted_month (message_day : PyDateTime) (date : List Char) : RuleResult :=
  let p := (lowerL date).map (fun c => if isAsciiPunct c then ' ' else c)
  match sdmFindAllAux (p.length + 1) none p with
  | [] => .ok none
  | f :: fs =>
      let em := minPairList (f :: fs)
      let year := if em.1 < message_day.month then message_day.year + 1 else message_day.year
      let dd := min (max em.2 1) (daysInMonth year em.1)
      let parsed := mkDt year em.1 dd 0 0 0 none
      if isSubstrB kwMorning date ∧ isSubstrB kwAfternoon date then
        .ok (some (({} : DateTimeInformation).set_as_morning_afternoon_datetime parsed))
      else if isSubstrB kwMorning date then
        .ok (some (({} : DateTimeInformation).set_as_morning_datetime parsed))
      else if isSubstrB kwAfternoon date then
        .ok (some (({} : DateTimeInformation).set_as_afternoon_datetime parsed))
      else .ok (some (({} : DateTimeInformation).set_as_date parsed))

/-- Captures of the time-of-day pattern (empty capture = absent group). -/
structure TodG where
  dayPre : List Char
  t1 : List Char
  t2 : List Char
  dayPost : List Char
deriving Repr, DecidableEq

/-- Match the `_time_of_day` pattern at the start of `s`:
`(today|tomorrow)?\s*-*\s*(morning|afternoon|evening)\s*(or)?\s*
(morning|afternoon|evening)?(today|tomorrow)?`.  The third `day_pre`
alternative of the source pattern is the literal text of an unexpanded
f-string placeholder (`{{self.month_abbrvs}}` inside an f-string) and can
never match a real phrase, so it is omitted. -/
def todMatchAt (s : List Char) : Option TodG :=
  (optCands (altCandsCI [kwToday, kwTomorrow] s) s).findSome? (fun p1 =>
    let r2 := wsSkip ((wsSkip p1.2).dropWhile (fun c => c == '-'))
    (altCandsCI [kwMorning, kwAfternoon, kwEvening] r2).findSome? (fun t1 =>
      (optCands (altCandsCI [kwOr] (wsSkip t1.2)) (wsSkip t1.2)).findSome? (fun o1 =>
        (optCands (altCandsCI [kwMorning, kwAfternoon, kwEvening] (wsSkip o1.2))
            (wsSkip o1.2)).findSome? (fun t2 =>
          ((optCands (altCandsCI [kwToday, kwTomorrow] t2.2) t2.2).head?).map (fun p2 =>
            ⟨p1.1, t1.1, t2.1, p2.1⟩)))))

def searchTod : List Char → Option TodG
  | [] => none
  | c :: t =>
      match todMatchAt (c :: t) with
      | some g => some g
      | none => searchTod t

/-- `_time_of_day`: morning/afternoon buckets attached to today or tomorrow.
The comparisons against `sorted(times_of_day)` are expanded case by case. -/
def time_of_day_rule (message_day : PyDateTime) (date : List Char) : RuleResult :=
  match searchTod date with
  | none => .ok none
  | some g =>
      if g.dayPre = [] ∧ g.dayPost = [] then .ok none
      else
        let parsed := if g.dayPre = kwTomorrow ∨ g.dayPost = kwTomorrow then
                        message_day.addUsec usecPerDay
                      else message_day
        let ts := g.t1 :: (if g.t2 = [] then [] else [g.t2])
        if ts = [kwMorning] then
          .ok (some (({} : DateTimeInformation).set_as_morning_datetime parsed))
        else if ts = [kwAfternoon] then
          .ok (some (({} : DateTimeInformation).set_as_afternoon_datetime parsed))
        else if ts = [kwAfternoon, kwMorning] ∨ ts = [kwMorning, kwAfternoon] then
          .ok (some (({} : DateTimeInformation).set_as_morning_afternoon_datetime parsed))
        else .ok none

/-- The `filter_sieve_order` of `AppointmentDateConverter.__init__`. -/
def appointmentRules (dp : List Char → Option PyDateTime) (thr : Int)
    (message_day message_timestamp : PyDateTime) (tzOff : Int) :
    List (List Char → RuleResult) :=
  [weekday_converter message_day,
   early_mid_late_month message_timestamp,
   time_qualifier_appt dp,
   tomorrow_qualifier_time thr message_day,
   today_qualifier_time thr message_day,
   time_range_between thr message_day,
   time_range thr message_day,
   singular_digit message_day,
   hour_range_month_date thr message_day,
   exception_safe_date_parse dp,
   weekend_converter message_day,
   end_of_month message_day tzOff,
   qualifier_exact_month message_day,
   asap_rule message_timestamp,
   space_delimted_month message_day,
   time_of_day_rule message_day]

/-- The `parse_date` rule loop: stop at the first rule whose result is not
`None`; a `ValueError` from a rule is treated as a non-match and the loop
continues. -/
def runSieve : List (List Char → RuleResult) → List Char → Option DateTimeInformation
  | [], _ => none
  | f :: fs, d =>
      match f d with
      | .error _ => runSieve fs d
      | .ok none => runSieve fs d
      | .ok (some r) => some r

/-- `AppointmentDateConverter._postprocess_date`: localize, push hours below
the am-to-pm threshold, roll stale values to the next day. -/
def appointment_postprocess (thr : Int) (tzOff : Int) (message_timestamp : PyDateTime)
    (d : DateTimeInformation) : DateTimeInformation :=
  ((d.localize_to_timezone tzOff).push_dates_above_threshold thr).push_to_next_day_if_before_time
    message_timestamp

/-- `parse_date` for the appointment variant.  `dp` stands for
`dateparser.parse` specialised to the settings of this call (an external
library); the message day is the timestamp truncated to midnight (its tzinfo
is kept); a rule result that is falsy but not `None` stops the loop and skips
postprocessing, exactly as in the source. -/
def parse_date_appointment (dp : List Char → Option PyDateTime) (thr : Int)
    (date : List Char) (message_timestamp : PyDateTime) (tzOff : Int) :
    Option DateTimeInformation :=
  let message_day := message_timestamp.toMidnight
  match runSieve (appointmentRules dp thr message_day message_timestamp tzOff) date with
  | none => none
  | some d =>
      if d.truthy then some (appointment_postprocess thr tzOff message_timestamp d)
      else some d

theorem runSieve_skip {f : List Char → RuleResult} {fs : List (List Char → RuleResult)}
    {d : List Char} (h : f d = .ok none) : runSieve (f :: fs) d = runSieve fs d := by
  simp [runSieve, h]

theorem runSieve_skip_err {f : List Char → RuleResult} {fs : List (List Char → RuleResult)}
    {d : List Char} (h : f d = .error ()) : runSieve (f :: fs) d = runSieve fs d := by
  simp [runSieve, h]

theorem runSieve_hit {f : List Char → RuleResult} {fs : List (List Char → RuleResult)}
    {d : List Char} {r : DateTimeInformation} (h : f d = .ok (some r)) :
    runSieve (f :: fs) d = some r := by
  simp [runSieve, h]

theorem parse_date_appointment_of_hit (dp : List Char → Option PyDateTime) (thr : Int)
    (date : List Char) (ts : PyDateTime) (tz : Int) (v : DateTimeInformation)
    (h : runSieve (appointmentRules dp thr ts.toMidnight ts tz) date = some v)
    (ht : v.truthy = true) :
    parse_date_appointment dp thr date ts tz =
      some (appointment_postprocess thr tz ts v) := by
  simp only [parse_date_appointment]
  rw [h]
  simp [ht]

theorem parse_date_appointment_of_none (dp : List Char → Option PyDateTime) (thr : Int)
    (date : List Char) (ts : PyDateTime) (tz : Int)
    (h : runSieve (appointmentRules dp thr ts.toMidnight ts tz) date = none) :
    parse_date_appointment dp thr date ts tz = none := by
  simp only [parse_date_appointment]
  rw [h]

/-- US/Eastern in January, as a fixed UTC offset in microseconds (UTC-5). -/
def estOff : Int := -18000000000

/-- The reference message timestamp of the spec scenarios:
Wednesday 2024-01-10 09:00 local, timezone US/Eastern. -/
def refTimestamp : PyDateTime := mkDt 2024 1 10 9 0 0 (some estOff)

/-- A dateparser stub that recognizes nothing. -/
def dpNone : List Char → Option PyDateTime := fun _ => none

example : refTimestamp.toMidnight = mkDt 2024 1 10 0 0 0 (some estOff) := by decide
example : refTimestamp.weekday = 2 := by decide

/-- C3 (counterexample): with the reference timestamp and threshold 9, the
appointment-variant parse of the bare phrase "9" is an exact instant at 09:00
on 2024-01-10 — it is NOT pushed to 21:00 (`push_dates_above_threshold`
requires `hour < threshold`, and 9 < 9 fails) and it is not rolled to the next
day (09:00 is not strictly before the 09:00 message timestamp). -/
theorem C3_bare_nine_not_pushed :
    parse_date_appointment dpNone 9 (strL "9") refTimestamp estOff =
      some (DateTimeInformation.mk (some (mkDt 2024 1 10 9 0 0 (some estOff)))
        (some (mkDt 2024 1 10 9 0 0 (some estOff))) true) ∧
    parse_date_appointment dpNone 9 (strL "9") refTimestamp estOff ≠
      some (DateTimeInformation.mk (some (mkDt 2024 1 10 21 0 0 (some estOff)))
        (some (mkDt 2024 1 10 21 0 0 (some estOff))) true) ∧
    parse_date_appointment dpNone 9 (strL "9") refTimestamp estOff ≠
      some (DateTimeInformation.mk (some (mkDt 2024 1 11 21 0 0 (some estOff)))
        (some (mkDt 2024 1 11 21 0 0 (some estOff))) true) := by decide

/-- C3 (amended): for any dateparser behaviour (the bare-digit rules never
consult it), the appointment-variant parse of "9" at the reference timestamp
with threshold 9 is the exact instant 2024-01-10 09:00: hour 9 is not strictly
below the am-to-pm threshold 9, so the threshold rule does not push it, and it
is not strictly before the message timestamp, so it is not rolled. -/
theorem C3_bare_nine_exact_nine_am (dp : List Char → Option PyDateTime) :
    parse_date_appointment dp 9 (strL "9") refTimestamp estOff =
      some (DateTimeInformation.mk (some (mkDt 2024 1 10 9 0 0 (some estOff)))
        (some (mkDt 2024 1 10 9 0 0 (some estOff))) true) := by
  have hs : runSieve (appointmentRules dp 9 refTimestamp.toMidnight refTimestamp estOff)
      (strL "9") =
      some (DateTimeInformation.mk (some (mkDt 2024 1 10 9 0 0 (some estOff)))
        (some (mkDt 2024 1 10 9 0 0 (some estOff))) true) := by
    unfold appointmentRules
    rw [runSieve_skip (show weekday_converter refTimestamp.toMidnight (strL "9") =
      Except.ok none by decide)]
    rw [runSieve_skip (show early_mid_late_month refTimestamp (strL "9") =
      Except.ok none by decide)]
    rw [runSieve_skip (show time_qualifier_appt dp (strL "9") = Except.ok none by rfl)]
    rw [runSieve_skip (show tomorrow_qualifier_time 9 refTimestamp.toMidnight (strL "9") =
      Except.ok none by decide)]
    rw [runSieve_skip (show today_qualifier_time 9 refTimestamp.toMidnight (strL "9") =
      Except.ok none by decide)]
    rw [runSieve_skip (show time_range_between 9 refTimestamp.toMidnight (strL "9") =
      Except.ok none by decide)]
    rw [runSieve_skip (show time_range 9 refTimestamp.toMidnight (strL "9") =
      Except.ok none by decide)]
    exact runSieve_hit (show singular_digit refTimestamp.toMidnight (strL "9") =
      Except.ok (some (DateTimeInformation.mk (some (mkDt 2024 1 10 9 0 0 (some estOff)))
        (some (mkDt 2024 1 10 9 0 0 (some estOff))) true)) by decide)
  rw [parse_date_appointment_of_hit dp 9 (strL "9") refTimestamp estOff _ hs (by decide)]
  decide

/-- C2: with the reference timestamp, the `_asap` rule does return the whole
day 2024-01-10 (second conjunct), but the variant's postprocessing then rolls
only the midnight lower bound one day forward (midnight is before the 09:00
message timestamp while 23:59:59 is not), leaving `datetime_min = 2024-01-11
00:00` above `datetime_max = 2024-01-10 23:59:59`; `convert` consequently
reports 2024-01-11, not the whole day 2024-01-10 claimed by the spec. -/
theorem C2_asap_code_behavior (dp : List Char → Option PyDateTime)
    (h : dp (strL "asap") = none) :
    parse_date_appointment dp 9 (strL "asap") refTimestamp estOff =
      some (DateTimeInformation.mk (some (mkDt 2024 1 11 0 0 0 (some estOff)))
        (some (mkDt 2024 1 10 23 59 59 (some estOff))) true) ∧
    runSieve (appointmentRules dp 9 refTimestamp.toMidnight refTimestamp estOff)
        (strL "asap") =
      some (DateTimeInformation.mk (some (mkDt 2024 1 10 0 0 0 none))
        (some (mkDt 2024 1 10 23 59 59 none)) true) ∧
    (DateTimeInformation.mk (some (mkDt 2024 1 11 0 0 0 (some estOff)))
        (some (mkDt 2024 1 10 23 59 59 (some estOff))) true).convert =
      some [mkDt 2024 1 11 0 0 0 (some estOff)] ∧
    (mkDt 2024 1 10 23 59 59 (some estOff)).utc < (mkDt 2024 1 11 0 0 0 (some estOff)).utc := by
  have hs : runSieve (appointmentRules dp 9 refTimestamp.toMidnight refTimestamp estOff)
      (strL "asap") =
      some (DateTimeInformation.mk (some (mkDt 2024 1 10 0 0 0 none))
        (some (mkDt 2024 1 10 23 59 59 none)) true) := by
    unfold appointmentRules
    rw [runSieve_skip (show weekday_converter refTimestamp.toMidnight (strL "asap") =
      Except.ok none by decide)]
    rw [runSieve_skip (show early_mid_late_month refTimestamp (strL "asap") =
      Except.ok none by decide)]
    rw [runSieve_skip (show time_qualifier_appt dp (strL "asap") = Except.ok none by rfl)]
    rw [runSieve_skip (show tomorrow_qualifier_time 9 refTimestamp.toMidnight (strL "asap") =
      Except.ok none by decide)]
    rw [runSieve_skip (show today_qualifier_time 9 refTimestamp.toMidnight (strL "asap") =
      Except.ok none by decide)]
    rw [runSieve_skip (show time_range_between 9 refTimestamp.toMidnight (strL "asap") =
      Except.ok none by decide)]
    rw [runSieve_skip (show time_range 9 refTimestamp.toMidnight (strL "asap") =
      Except.ok none by decide)]
    rw [runSieve_skip (show singular_digit refTimestamp.toMidnight (strL "asap") =
      Except.ok none by decide)]
    rw [runSieve_skip (show hour_range_month_date 9 refTimestamp.toMidnight (strL "asap") =
      Except.ok none by decide)]
    rw [runSieve_skip (show exception_safe_date_parse dp (strL "asap") = Except.ok none by
      unfold exception_safe_date_parse
      rw [if_neg (by decide), h])]
    rw [runSieve_skip (show weekend_converter refTimestamp.toMidnight (strL "asap") =
      Except.ok none by decide)]
    rw [runSieve_skip (show end_of_month refTimestamp.toMidnight estOff (strL "asap") =
      Except.ok none by decide)]
    rw [runSieve_skip (show qualifier_exact_month refTimestamp.toMidnight (strL "asap") =
      Except.ok none by decide)]
    exact runSieve_hit (show asap_rule refTimestamp (strL "asap") =
      Except.ok (some (DateTimeInformation.mk (some (mkDt 2024 1 10 0 0 0 none))
        (some (mkDt 2024 1 10 23 59 59 none)) true)) by decide)
  refine ⟨?_, hs, by decide, by decide⟩
  rw [parse_date_appointment_of_hit dp 9 (strL "asap") refTimestamp estOff _ hs (by decide)]
  decide

theorem C2_asap_code_behavior_witness :
    parse_date_appointment dpNone 9 (strL "asap") refTimestamp estOff =
      some (DateTimeInformation.mk (some (mkDt 2024 1 11 0 0 0 (some estOff)))
        (some (mkDt 2024 1 10 23 59 59 (some estOff))) true) :=
  (C2_asap_code_behavior dpNone rfl).1

/-- C5: with the reference timestamp and threshold 9, the appointment-variant
parse of "1pm to 3pm on Feb 3" is the between-range
[2024-02-03 13:00, 2024-02-03 15:00] with `is_exact_date_range = true`, and
postprocessing leaves those bounds unchanged (first conjunct: the value
produced by the rule before postprocessing; second: the final parse result).
The rules consulted on this phrase never call dateparser, so `dp` is
arbitrary. -/
theorem C5_time_range_between_scenario (dp : List Char → Option PyDateTime) :
    runSieve (appointmentRules dp 9 refTimestamp.toMidnight refTimestamp estOff)
        (strL "1pm to 3pm on Feb 3") =
      some (DateTimeInformation.mk (some (mkDt 2024 2 3 13 0 0 (some estOff)))
        (some (mkDt 2024 2 3 15 0 0 (some estOff))) true) ∧
    parse_date_appointment dp 9 (strL "1pm to 3pm on Feb 3") refTimestamp estOff =
      some (DateTimeInformation.mk (some (mkDt 2024 2 3 13 0 0 (some estOff)))
        (some (mkDt 2024 2 3 15 0 0 (some estOff))) true) := by
  have hs : runSieve (appointmentRules dp 9 refTimestamp.toMidnight refTimestamp estOff)
      (strL "1pm to 3pm on Feb 3") =
      some (DateTimeInformation.mk (some (mkDt 2024 2 3 13 0 0 (some estOff)))
        (some (mkDt 2024 2 3 15 0 0 (some estOff))) true) := by
    unfold appointmentRules
    rw [runSieve_skip (show weekday_converter refTimestamp.toMidnight
      (strL "1pm to 3pm on Feb 3") = Except.ok none by decide)]
    rw [runSieve_skip (show early_mid_late_month refTimestamp
      (strL "1pm to 3pm on Feb 3") = Except.ok none by decide)]
    rw [runSieve_skip (show time_qualifier_appt dp (strL "1pm to 3pm on Feb 3") =
      Except.ok none by rfl)]
    rw [runSieve_skip (show tomorrow_qualifier_time 9 refTimestamp.toMidnight
      (strL "1pm to 3pm on Feb 3") = Except.ok none by decide)]
    rw [runSieve_skip (show today_qualifier_time 9 refTimestamp.toMidnight
      (strL "1pm to 3pm on Feb 3") = Except.ok none by decide)]
    exact runSieve_hit (show time_range_between 9 refTimestamp.toMidnight
      (strL "1pm to 3pm on Feb 3") =
      Except.ok (some (DateTimeInformation.mk (some (mkDt 2024 2 3 13 0 0 (some estOff)))
        (some (mkDt 2024 2 3 15 0 0 (some estOff))) true)) by decide)
  refine ⟨hs, ?_⟩
  rw [parse_date_appointment_of_hit dp 9 (strL "1pm to 3pm on Feb 3") refTimestamp estOff _ hs
    (by decide)]
  decide

/-- C9: a rule raising a value-parsing error is treated exactly as a
non-match.  First conjunct: generically, an erroring rule is skipped and the
sieve continues with the remaining rules.  Second: on the phrase
"1: to 3pm tomorrow morning" the `_time_range_between` rule matches the
pattern but `int("")` on the empty minute side of "1:" raises (`.error`).
Third: the full appointment parse of that phrase nevertheless succeeds through
the later `_time_of_day` rule, returning the morning bucket of 2024-01-11 —
the error never propagates to the caller. -/
theorem C9_value_error_skipped (f : List Char → RuleResult)
    (fs : List (List Char → RuleResult)) (d : List Char) (hf : f d = .error ())
    (dp : List Char → Option PyDateTime)
    (hdp : dp (strL "1: to 3pm tomorrow morning") = none) :
    runSieve (f :: fs) d = runSieve fs d ∧
    time_range_between 9 refTimestamp.toMidnight (strL "1: to 3pm tomorrow morning") =
      .error () ∧
    parse_date_appointment dp 9 (strL "1: to 3pm tomorrow morning") refTimestamp estOff =
      some (DateTimeInformation.mk (some (mkDt 2024 1 11 0 0 0 (some estOff)))
        (some (mkDt 2024 1 11 11 59 59 (some estOff))) false) := by
  refine ⟨runSieve_skip_err hf, by decide, ?_⟩
  have hs : runSieve (appointmentRules dp 9 refTimestamp.toMidnight refTimestamp estOff)
      (strL "1: to 3pm tomorrow morning") =
      some (DateTimeInformation.mk (some (mkDt 2024 1 11 0 0 0 none))
        (some (mkDt 2024 1 11 11 59 59 none)) false) := by
    unfold appointmentRules
    rw [runSieve_skip (show weekday_converter refTimestamp.toMidnight
      (strL "1: to 3pm tomorrow morning") = Except.ok none by decide)]
    rw [runSieve_skip (show early_mid_late_month refTimestamp
      (strL "1: to 3pm tomorrow morning") = Except.ok none by decide)]
    rw [runSieve_skip (show time_qualifier_appt dp (strL "1: to 3pm tomorrow morning") =
      Except.ok none by rfl)]
    rw [runSieve_skip (show tomorrow_qualifier_time 9 refTimestamp.toMidnight
      (strL "1: to 3pm tomorrow morning") = Except.ok none by decide)]
    rw [runSieve_skip (show today_qualifier_time 9 refTimestamp.toMidnight
      (strL "1: to 3pm tomorrow morning") = Except.ok none by decide)]
    rw [runSieve_skip_err (show time_range_between 9 refTimestamp.toMidnight
      (strL "1: to 3pm tomorrow morning") = Except.error () by decide)]
    rw [runSieve_skip (show time_range 9 refTimestamp.toMidnight
      (strL "1: to 3pm tomorrow morning") = Except.ok none by decide)]
    rw [runSieve_skip (show singular_digit refTimestamp.toMidnight
      (strL "1: to 3pm tomorrow morning") = Except.ok none by decide)]
    rw [runSieve_skip (show hour_range_month_date 9 refTimestamp.toMidnight
      (strL "1: to 3pm tomorrow morning") = Except.ok none by decide)]
    rw [runSieve_skip (show exception_safe_date_parse dp
      (strL "1: to 3pm tomorrow morning") = Except.ok none by
        unfold exception_safe_date_parse
        rw [if_neg (by decide), hdp])]
    rw [runSieve_skip (show weekend_converter refTimestamp.toMidnight
      (strL "1: to 3pm tomorrow morning") = Except.ok none by decide)]
    rw [runSieve_skip (show end_of_month refTimestamp.toMidnight estOff
      (strL "1: to 3pm tomorrow morning") = Except.ok none by decide)]
    rw [runSieve_skip (show qualifier_exact_month refTimestamp.toMidnight
      (strL "1: to 3pm tomorrow morning") = Except.ok none by decide)]
    rw [runSieve_skip (show asap_rule refTimestamp
      (strL "1: to 3pm tomorrow morning") = Except.ok none by decide)]
    rw [runSieve_skip (show space_delimted_month refTimestamp.toMidnight
      (strL "1: to 3pm tomorrow morning") = Except.ok none by decide)]
    exact runSieve_hit (show time_of_day_rule refTimestamp.toMidnight
      (strL "1: to 3pm tomorrow morning") =
      Except.ok (some (DateTimeInformation.mk (some (mkDt 2024 1 11 0 0 0 none))
        (some (mkDt 2024 1 11 11 59 59 none)) false)) by decide)
  rw [parse_date_appointment_of_hit dp 9 (strL "1: to 3pm tomorrow morning") refTimestamp
    estOff _ hs (by decide)]
  decide

theorem C9_value_error_skipped_witness :
    runSieve [time_range_between 9 refTimestamp.toMidnight]
        (strL "1: to 3pm tomorrow morning") =
      runSieve [] (strL "1: to 3pm tomorrow morning") ∧
    time_range_between 9 refTimestamp.toMidnight (strL "1: to 3pm tomorrow morning") =
      .error () ∧
    parse_date_appointment dpNone 9 (strL "1: to 3pm tomorrow morning") refTimestamp estOff =
      some (DateTimeInformation.mk (some (mkDt 2024 1 11 0 0 0 (some estOff)))
        (some (mkDt 2024 1 11 11 59 59 (some estOff))) false) :=
  C9_value_error_skipped (time_range_between 9 refTimestamp.toMidnight) []
    (strL "1: to 3pm tomorrow morning") (by decide) dpNone rfl

/-- C10: the bare-numeric-hour rule produces a result exactly for digit-only
tokens of one or two characters whose value lies strictly between 0 and 23,
returning an exact instant at that hour on the message day (the message day's
minute is zero in the pipeline, and `replace(hour=h)` keeps it); outside that
window the rule returns nothing; the general fallback also rejects digit-only
tokens of length at most two before consulting dateparser; and the
appointment-variant parse of "0", "23" and "99" is absent for every dateparser
behaviour — in particular 11pm cannot be expressed as the bare token "23". -/
theorem C10_bare_numeric_hour (message_day : PyDateTime) (s : List Char)
    (dp : List Char → Option PyDateTime) :
    ((s.length ≤ 2 ∧ s ≠ [] ∧ s.all Char.isDigit = true ∧
        0 < intFromDigits s ∧ intFromDigits s < 23) →
      singular_digit message_day s =
        .ok (some (({} : DateTimeInformation).set_as_exact_datetime
          (message_day.replaceHour (intFromDigits s))))) ∧
    (¬ (s.length ≤ 2 ∧ s ≠ [] ∧ s.all Char.isDigit = true ∧
        0 < intFromDigits s ∧ intFromDigits s < 23) →
      singular_digit message_day s = .ok none) ∧
    ((s.length ≤ 2 ∧ s ≠ [] ∧ s.all Char.isDigit = true) →
      exception_safe_date_parse dp s = .ok none) ∧
    parse_date_appointment dp 9 (strL "0") refTimestamp estOff = none ∧
    parse_date_appointment dp 9 (strL "23") refTimestamp estOff = none ∧
    parse_date_appointment dp 9 (strL "99") refTimestamp estOff = none := by
  refine ⟨?_, ?_, ?_, rfl, rfl, rfl⟩
  · rintro ⟨h1, h2, h3, h4, h5⟩
    unfold singular_digit
    rw [if_pos ⟨h1, h2, h3⟩, if_pos ⟨h4, h5⟩]
  · intro hn
    unfold singular_digit
    by_cases hA : s.length ≤ 2 ∧ s ≠ [] ∧ s.all Char.isDigit = true
    · by_cases hB : 0 < intFromDigits s ∧ intFromDigits s < 23
      · exact absurd ⟨hA.1, hA.2.1, hA.2.2, hB.1, hB.2⟩ hn
      · rw [if_pos hA, if_neg hB]
    · rw [if_neg hA]
  · intro hA
    unfold exception_safe_date_parse
    rw [if_pos hA]

theorem C10_bare_numeric_hour_witness :
    singular_digit refTimestamp.toMidnight (strL "9") =
      .ok (some (({} : DateTimeInformation).set_as_exact_datetime
        (refTimestamp.toMidnight.replaceHour (intFromDigits (strL "9"))))) ∧
    singular_digit refTimestamp.toMidnight (strL "23") = .ok none ∧
    exception_safe_date_parse dpNone (strL "23") = .ok none :=
  ⟨(C10_bare_numeric_hour refTimestamp.toMidnight (strL "9") dpNone).1 (by decide),
   (C10_bare_numeric_hour refTimestamp.toMidnight (strL "23") dpNone).2.1 (by decide),
   (C10_bare_numeric_hour refTimestamp.toMidnight (strL "23") dpNone).2.2.1 (by decide)⟩

/-- C4 (counterexample): on Thursday 2024-01-11 the "this week" rule returns
the whole day of Monday 2024-01-15 (`message_day + (7 - weekday)` days), not
the upcoming Saturday 2024-01-13 claimed by the spec. -/
theorem C4_thursday_gives_monday :
    weekday_converter (mkDt 2024 1 11 0 0 0 none) (strL "this week") =
      .ok (some (({} : DateTimeInformation).set_as_date (mkDt 2024 1 15 0 0 0 none))) ∧
    (mkDt 2024 1 11 0 0 0 none).weekday = 3 ∧
    (mkDt 2024 1 15 0 0 0 none).weekday = 0 ∧
    (mkDt 2024 1 13 0 0 0 none).weekday = 5 ∧
    weekday_converter (mkDt 2024 1 11 0 0 0 none) (strL "this week") ≠
      .ok (some (({} : DateTimeInformation).set_as_date (mkDt 2024 1 13 0 0 0 none))) := by
  decide

/-- C4 (amended): for every message day, a phrase matching `\bthis week\b`
resolves to the whole day of tomorrow when the message weekday is 0-2
(Monday-Wednesday), and otherwise to the whole day of
`message_day + (7 - weekday)` days — the upcoming Monday (its weekday is 0),
not the start of the coming weekend. -/
theorem C4_this_week_rule (message_day : PyDateTime) (phrase : List Char)
    (h : boundedSearch kwThisWeek phrase = true) :
    (message_day.weekday < 3 →
      weekday_converter message_day phrase =
        .ok (some (({} : DateTimeInformation).set_as_date
          (message_day.addUsec usecPerDay)))) ∧
    (¬ message_day.weekday < 3 →
      weekday_converter message_day phrase =
        .ok (some (({} : DateTimeInformation).set_as_date
          (message_day.addUsec ((7 - message_day.weekday) * usecPerDay)))) ∧
      (message_day.addUsec ((7 - message_day.weekday) * usecPerDay)).weekday = 0) := by
  simp only [weekday_converter]
  rw [if_pos h]
  constructor
  · intro hlt
    rw [if_pos hlt]
  · intro hge
    rw [if_neg hge]
    refine ⟨rfl, ?_⟩
    unfold PyDateTime.weekday PyDateTime.dayIndex PyDateTime.addUsec at *
    simp only [usecPerDay] at *
    omega

theorem C4_this_week_rule_witness :
    weekday_converter (mkDt 2024 1 10 0 0 0 none) (strL "can we do this week") =
      .ok (some (({} : DateTimeInformation).set_as_date
        ((mkDt 2024 1 10 0 0 0 none).addUsec usecPerDay))) :=
  (C4_this_week_rule (mkDt 2024 1 10 0 0 0 none) (strL "can we do this week")
    (by decide)).1 (by decide)
